import Mathlib

/-!
Verification development for the TerraTactics terrain-map generator.

The TypeScript services under `src/services` are shallowly embedded:
numbers become `ℚ` (all arithmetic in the relevant code paths is exact on
rationals once the transcendental library calls `Math.sin`, `Math.cos`,
`Math.sqrt` and the haversine distances are abstracted as explicit
parameters), arrays become `List`, and the JavaScript `Infinity` /
`-Infinity` sentinels used by the simulated-elevation fold are modelled
with `Option ℚ` (`none` standing for the sentinel that survives an empty
fold).
-/

namespace TerraTactics

/-- `Bounds` from `types.ts`: a geographic rectangle in decimal degrees. -/
structure Bounds where
  north : ℚ
  south : ℚ
  east : ℚ
  west : ℚ
deriving DecidableEq, Repr

/-- `GridType` from `types.ts`. -/
inductive GridType where
  | hex
  | square
deriving DecidableEq, Repr

namespace ElevationService

/-- `ElevationData` from `ElevationService.ts`.  `minElevation` and
`maxElevation` are JavaScript numbers initialised to `Infinity` and
`-Infinity`; the embedding stores `none` for a sentinel that was never
updated (empty sample list) and `some q` otherwise. -/
structure ElevationData where
  data : List ℚ
  width : ℕ
  height : ℕ
  bounds : Bounds
  minElevation : Option ℚ
  maxElevation : Option ℚ
deriving DecidableEq, Repr

/-- One `Math.min` update of the running minimum, starting from the
`Infinity` sentinel (`none`). -/
def minStep (m : Option ℚ) (v : ℚ) : Option ℚ :=
  match m with
  | none => some v
  | some m' => some (min m' v)

/-- One `Math.max` update of the running maximum, starting from the
`-Infinity` sentinel (`none`). -/
def maxStep (m : Option ℚ) (v : ℚ) : Option ℚ :=
  match m with
  | none => some v
  | some m' => some (max m' v)

/-- The elevation sample computed for raster position `(x, y)` in
`generateSimulatedElevationData`.  `Math.sin`, `Math.cos` and `Math.sqrt`
are abstracted as the function parameters `sinq`, `cosq`, `sqrtq`; the
rest of the arithmetic is exact. -/
def elevationAt (sinq cosq sqrtq : ℚ → ℚ) (width height : ℕ) (x y : ℕ) : ℚ :=
  let e1 : ℚ := 500 + sinq ((x : ℚ) / 20) * cosq ((y : ℚ) / 20) * 200
    + sinq ((x : ℚ) / 10 + (y : ℚ) / 10) * 100
  let centerX : ℚ := (width : ℚ) / 2
  let centerY : ℚ := (height : ℚ) / 2
  let distanceFromCenter : ℚ :=
    sqrtq (((x : ℚ) - centerX) ^ 2 + ((y : ℚ) - centerY) ^ 2)
  let mountainFactor : ℚ :=
    max 0 (1 - distanceFromCenter / (min (width : ℚ) (height : ℚ) / 2))
  max 0 (e1 + mountainFactor * 500)

/-- The row-major sample array filled by the nested `y`/`x` loops of
`generateSimulatedElevationData` (`data[y * width + x] = elevation`). -/
def simData (sinq cosq sqrtq : ℚ → ℚ) (width height : ℕ) : List ℚ :=
  (List.range height).flatMap fun y =>
    (List.range width).map fun x => elevationAt sinq cosq sqrtq width height x y

/-- Result record of `generateSimulatedElevationData`. -/
structure SimResult where
  data : List ℚ
  minElevation : Option ℚ
  maxElevation : Option ℚ
deriving DecidableEq, Repr

/-- `ElevationService.generateSimulatedElevationData`: fills the sample
array and tracks the running minimum and maximum, starting from the
`Infinity` / `-Infinity` sentinels. -/
def generateSimulatedElevationData (sinq cosq sqrtq : ℚ → ℚ)
    (width height : ℕ) : SimResult :=
  let data := simData sinq cosq sqrtq width height
  { data := data
    minElevation := data.foldl minStep none
    maxElevation := data.foldl maxStep none }

/-- The raw raster width of `getElevationData`:
`Math.ceil((east - west) * 3600)` (~30 m resolution). -/
def rawWidth (bounds : Bounds) : ℤ := ⌈(bounds.east - bounds.west) * 3600⌉

/-- The raw raster height of `getElevationData`:
`Math.ceil((north - south) * 3600)`. -/
def rawHeight (bounds : Bounds) : ℤ := ⌈(bounds.north - bounds.south) * 3600⌉

/-- The shrink factor of `getElevationData`:
`scale = Math.min(1, maxSize / Math.max(width, height))` with
`maxSize = 1000`. -/
def sizeScale (bounds : Bounds) : ℚ :=
  min 1 (1000 / ((max (rawWidth bounds) (rawHeight bounds) : ℤ) : ℚ))

/-- `scaledWidth = Math.floor(width * scale)` in `getElevationData`. -/
def scaledWidth (bounds : Bounds) : ℤ :=
  ⌊(rawWidth bounds : ℚ) * sizeScale bounds⌋

/-- `scaledHeight = Math.floor(height * scale)` in `getElevationData`. -/
def scaledHeight (bounds : Bounds) : ℤ :=
  ⌊(rawHeight bounds : ℚ) * sizeScale bounds⌋

/-- `ElevationService.getElevationData`.  The raw dimensions are
`ceil(span * 3600)` (~30 m resolution); they are then scaled by
`min(1, 1000 / max(width, height))` so that neither dimension exceeds
1000 samples, and the (simulated) raster of the scaled size is returned.
The successive `let` bindings of the source are the named definitions
above.  No failure path exists apart from the rethrow modelled
separately by `getElevationDataE`. -/
def getElevationData (sinq cosq sqrtq : ℚ → ℚ) (bounds : Bounds) :
    ElevationData :=
  let sim := generateSimulatedElevationData sinq cosq sqrtq
    (scaledWidth bounds).toNat (scaledHeight bounds).toNat
  { data := sim.data
    width := (scaledWidth bounds).toNat
    height := (scaledHeight bounds).toNat
    bounds := bounds
    minElevation := sim.minElevation
    maxElevation := sim.maxElevation }

/-- Message prefixed by the `catch` block of `getElevationData` before
rethrowing. -/
def fetchFailMsg : String := "Failed to fetch elevation data: "

/-- The `try`/`catch` wrapper of `getElevationData`: the body of the
`try` block is abstracted as `fetchStep`; the `catch` block rethrows a
`Failed to fetch elevation data` error immediately.  No other elevation
provider (`getOpenTopographyData`) is consulted anywhere on this path. -/
def getElevationDataE (fetchStep : Bounds → Except String ElevationData)
    (bounds : Bounds) : Except String ElevationData :=
  match fetchStep bounds with
  | Except.ok d => Except.ok d
  | Except.error e => Except.error (fetchFailMsg ++ e)

end ElevationService

namespace ContourService

open ElevationService

/-- `ContourLine` from `ContourService.ts`: one contour level with its
list of rings, each ring a list of `(lng, lat)` points. -/
structure ContourLine where
  elevation : ℚ
  coordinates : List (List (ℚ × ℚ))
deriving DecidableEq, Repr

/-- The four corner samples of the 2×2 cell anchored at `(x, y)` read by
the contouring loop: `data[idx]`, `data[idx+1]` (right),
`data[idx+width]` (below) and `data[idx+width+1]` (below-right), where
`idx = y * width + x`.  In-range accesses (which the loop bounds
guarantee for a well-formed raster) never hit the `getD` default. -/
def cellCorners (data : List ℚ) (width : ℕ) (x y : ℕ) : List ℚ :=
  let idx := y * width + x
  [data.getD idx 0, data.getD (idx + 1) 0,
   data.getD (idx + width) 0, data.getD (idx + width + 1) 0]

/-- The crossing test of the contouring loop: some corner is `≥` the
threshold and some corner is `<` the threshold. -/
def cellCrosses (data : List ℚ) (width : ℕ) (threshold : ℚ) (x y : ℕ) : Bool :=
  let corners := cellCorners data width x y
  (corners.any fun v => threshold ≤ v) && (corners.any fun v => v < threshold)

/-- The cell-centre geographic point emitted for a crossing cell:
`lng = west + (x + 0.5) * lngStep`, `lat = north - (y + 0.5) * latStep`
with `lngStep = (east - west) / width` and
`latStep = (north - south) / height`. -/
def cellCenterPoint (bounds : Bounds) (width height : ℕ) (x y : ℕ) : ℚ × ℚ :=
  let lngStep := (bounds.east - bounds.west) / (width : ℚ)
  let latStep := (bounds.north - bounds.south) / (height : ℚ)
  (bounds.west + ((x : ℚ) + 1 / 2) * lngStep,
   bounds.north - ((y : ℚ) + 1 / 2) * latStep)

/-- The per-threshold ring accumulation of `generateContours`: the nested
`y < height - 1`, `x < width - 1` loops push one single-point ring per
cell satisfying the crossing test. -/
def contourCoordinates (eld : ElevationData) (threshold : ℚ) :
    List (List (ℚ × ℚ)) :=
  (List.range (eld.height - 1)).flatMap fun y =>
    (List.range (eld.width - 1)).filterMap fun x =>
      if cellCrosses eld.data eld.width threshold x y then
        some [cellCenterPoint eld.bounds eld.width eld.height x y]
      else
        none

/-- The threshold `for` loop `for (i = base; i <= max; i += interval)`.
For `interval ≤ 0` the JavaScript loop would never terminate; the
embedding returns `[]` in that (never exercised) case. -/
def thresholdsFrom (interval i mx : ℚ) : List ℚ :=
  if h : 0 < interval ∧ i ≤ mx then
    i :: thresholdsFrom interval (i + interval) mx
  else
    []
termination_by (⌊(mx - i) / interval⌋ + 1).toNat
decreasing_by
  have hint : 0 < interval := h.1
  have hle : i ≤ mx := h.2
  have hstep : (mx - (i + interval)) / interval = (mx - i) / interval - 1 := by
    field_simp
    ring
  have hfl : ⌊(mx - (i + interval)) / interval⌋ = ⌊(mx - i) / interval⌋ - 1 := by
    rw [hstep, Int.floor_sub_one]
  have hnn : 0 ≤ ⌊(mx - i) / interval⌋ := by
    apply Int.floor_nonneg.mpr
    apply div_nonneg (by linarith) (le_of_lt hint)
  omega

/-- `ContourService.generateContours` (`ContourService.ts`): thresholds
start at `floor(minElevation / interval) * interval` and step by
`interval` while `≤ maxElevation`; each threshold whose ring list is
nonempty contributes one `ContourLine`.  If either sentinel survived
(`none`, i.e. `Infinity` from an empty raster) the JavaScript loop body
never runs and no contour is produced. -/
def generateContours (eld : ElevationData) (interval : ℚ) : List ContourLine :=
  match eld.minElevation, eld.maxElevation with
  | some mn, some mx =>
    let baseElevation : ℚ := (⌊mn / interval⌋ : ℚ) * interval
    let thresholds := thresholdsFrom interval baseElevation mx
    thresholds.filterMap fun t =>
      let cc := contourCoordinates eld t
      if cc.isEmpty then none else some { elevation := t, coordinates := cc }
  | _, _ => []

end ContourService

namespace GridService

/-- `GridCell` from `GridService.ts`: polygon vertices as `(lng, lat)`
pairs and a `(lng, lat)` centre. -/
structure GridCell where
  id : String
  coordinates : List (ℚ × ℚ)
  center : ℚ × ℚ
deriving DecidableEq, Repr

/-- Fallback cell for out-of-range list reads in statements. -/
def dummyCell : GridCell :=
  { id := "", coordinates := [], center := (0, 0) }

/-- Body of the square-grid cell loop of `generateSquareGrid`: corner
coordinates clockwise from the north-west corner plus the closing point,
and the midpoint centre. -/
def squareCell (bounds : Bounds) (cellSizeLat cellSizeLng : ℚ) (x y : ℕ) :
    GridCell :=
  let cellWest := bounds.west + (x : ℚ) * cellSizeLng
  let cellEast := bounds.west + ((x : ℚ) + 1) * cellSizeLng
  let cellNorth := bounds.north - (y : ℚ) * cellSizeLat
  let cellSouth := bounds.north - ((y : ℚ) + 1) * cellSizeLat
  { id := "square-" ++ toString x ++ "-" ++ toString y
    coordinates := [(cellWest, cellNorth), (cellEast, cellNorth),
      (cellEast, cellSouth), (cellWest, cellSouth), (cellWest, cellNorth)]
    center := ((cellWest + cellEast) / 2, (cellNorth + cellSouth) / 2) }

/-- `GridService.generateSquareGrid`.  The haversine distances
`latMeters = calculateDistance(north, west, south, west)` and
`lngMeters = calculateDistance(north, west, north, east)` are
transcendental and are passed in as parameters. -/
def generateSquareGrid (bounds : Bounds) (cellsX cellsY : ℕ)
    (cellSizeMeters latMeters lngMeters : ℚ) : List GridCell :=
  let latDegreePerMeter := (bounds.north - bounds.south) / latMeters
  let lngDegreePerMeter := (bounds.east - bounds.west) / lngMeters
  let cellSizeLat := cellSizeMeters * latDegreePerMeter
  let cellSizeLng := cellSizeMeters * lngDegreePerMeter
  (List.range cellsY).flatMap fun y =>
    (List.range cellsX).map fun x => squareCell bounds cellSizeLat cellSizeLng x y

/-- Exact values of `Math.cos(Math.PI / 3 * k)` for `k = 0..5`. -/
def cos60 (k : ℕ) : ℚ :=
  [1, 1 / 2, -(1 / 2), -1, -(1 / 2), 1 / 2].getD (k % 6) 0

/-- Exact values of `Math.sin(Math.PI / 3 * k)` for `k = 0..5`, with
`√3` passed in as the parameter `sqrt3`. -/
def sin60 (sqrt3 : ℚ) (k : ℕ) : ℚ :=
  [0, sqrt3 / 2, sqrt3 / 2, 0, -(sqrt3 / 2), -(sqrt3 / 2)].getD (k % 6) 0

/-- Body of the hex-grid cell loop of `generateHexGrid`: the centre at
`(west + rowOffset + col * hexHorizSpacing, north - row * hexHeightLat)`
(odd rows offset by half the horizontal spacing), six vertices at
60°-interval angles, and the closing point. -/
def hexCell (bounds : Bounds) (hexRadius latDegreePerMeter lngDegreePerMeter
    hexHeightLat hexHorizSpacing sqrt3 : ℚ) (col row : ℕ) : GridCell :=
  let rowOffset := if row % 2 == 1 then hexHorizSpacing / 2 else 0
  let centerLng := bounds.west + rowOffset + (col : ℚ) * hexHorizSpacing
  let centerLat := bounds.north - (row : ℚ) * hexHeightLat
  let pts := (List.range 6).map fun i =>
    (centerLng + hexRadius * lngDegreePerMeter * cos60 i,
     centerLat - hexRadius * latDegreePerMeter * sin60 sqrt3 i)
  { id := "hex-" ++ toString col ++ "-" ++ toString row
    coordinates := pts ++ [pts.getD 0 (0, 0)]
    center := (centerLng, centerLat) }

/-- `GridService.generateHexGrid` (`GridService.ts`, the service the app
imports): `hexRadius = cellSize / 2`, `hexHeight = hexRadius * √3`,
horizontal spacing between centres `hexRadius * 1.5` (in degrees), and
adjacent rows placed a full `hexHeightLat` apart.  `Math.sqrt(3)` is
passed in as `sqrt3`; the haversine distances as `latMeters` /
`lngMeters`. -/
def generateHexGrid (bounds : Bounds) (cellsX cellsY : ℕ)
    (cellSizeMeters latMeters lngMeters sqrt3 : ℚ) : List GridCell :=
  let latDegreePerMeter := (bounds.north - bounds.south) / latMeters
  let lngDegreePerMeter := (bounds.east - bounds.west) / lngMeters
  let hexRadius := cellSizeMeters / 2
  let hexHeight := hexRadius * sqrt3
  let hexHeightLat := hexHeight * latDegreePerMeter
  let hexHorizSpacing := hexRadius * (3 / 2) * lngDegreePerMeter
  (List.range cellsY).flatMap fun row =>
    (List.range cellsX).map fun col =>
      hexCell bounds hexRadius latDegreePerMeter lngDegreePerMeter
        hexHeightLat hexHorizSpacing sqrt3 col row

/-- `GridService.generateGrid`: converts the cell size from feet to
meters (`× 0.3048`), derives the cell counts as
`ceil(widthMeters / cellSizeMeters)` and `ceil(heightMeters /
cellSizeMeters)`, and dispatches on the grid type.  `widthMeters` and
`heightMeters` stand for the haversine distances
`calculateDistance(north, west, north, east)` and
`calculateDistance(north, west, south, west)`. -/
def generateGrid (bounds : Bounds) (gridType : GridType) (gridSize : ℚ)
    (widthMeters heightMeters sqrt3 : ℚ) : List GridCell :=
  let feetToMeters : ℚ := 3048 / 10000
  let cellSizeMeters := gridSize * feetToMeters
  let cellsX := (⌈widthMeters / cellSizeMeters⌉).toNat
  let cellsY := (⌈heightMeters / cellSizeMeters⌉).toNat
  match gridType with
  | GridType.hex =>
    generateHexGrid bounds cellsX cellsY cellSizeMeters heightMeters
      widthMeters sqrt3
  | GridType.square =>
    generateSquareGrid bounds cellsX cellsY cellSizeMeters heightMeters
      widthMeters

end GridService

namespace GridServiceVariant

/-- `GridCell` of the alternative `GridService` bundled in the
`ElevationService.ts` source file: points as `(x, y)` pairs. -/
structure GridCell where
  id : String
  points : List (ℚ × ℚ)
  center : ℚ × ℚ
deriving DecidableEq, Repr

/-- Hex centre of the variant `generateHexGrid` for row `i`, column `j`:
`centerY = north - i * (hexHeightLat * 0.75) - circumradius / 111`,
`centerX = west + j * hexWidthLng + offset + inradius / (111 * cosLat)`
with odd rows offset by `hexWidthLng / 2`.  `inradius = gridSizeKm / 2`,
`circumradius = inradius * 2 / √3`, `hexWidthLng = inradius * 2 /
(111 * cosLat)`, `hexHeightLat = circumradius * 2 / 111`;
`cosLat = Math.cos(avgLat * π / 180)` and `√3` are passed in as
parameters. -/
def hexCenter (bounds : Bounds) (gridSizeKm cosLat sqrt3 : ℚ) (i j : ℕ) :
    ℚ × ℚ :=
  let inradius := gridSizeKm / 2
  let circumradius := inradius * 2 / sqrt3
  let hexWidthLng := inradius * 2 / (111 * cosLat)
  let hexHeightLat := circumradius * 2 / 111
  let isOddRow := i % 2 == 1
  let offset := if isOddRow then hexWidthLng / 2 else 0
  let centerY := bounds.north - (i : ℚ) * (hexHeightLat * (3 / 4))
    - circumradius / 111
  let centerX := bounds.west + (j : ℚ) * hexWidthLng + offset
    + inradius / (111 * cosLat)
  (centerX, centerY)

/-- The variant `generateHexGrid` of the `GridService` bundled in
`ElevationService.ts`: cells whose centre falls east of `east` or south
of `south` are skipped (`continue`); each kept cell carries its six
60°-interval vertices plus the closing point. -/
def generateHexGrid (bounds : Bounds) (numLat numLng : ℕ)
    (gridSizeKm cosLat sqrt3 : ℚ) : List GridCell :=
  let inradius := gridSizeKm / 2
  let circumradius := inradius * 2 / sqrt3
  (List.range numLat).flatMap fun i =>
    (List.range numLng).filterMap fun j =>
      let c := hexCenter bounds gridSizeKm cosLat sqrt3 i j
      if c.1 > bounds.east ∨ c.2 < bounds.south then
        none
      else
        let pts := (List.range 6).map fun k =>
          (c.1 + inradius * GridService.cos60 k / (111 * cosLat),
           c.2 + circumradius * GridService.sin60 sqrt3 k / 111)
        some { id := "", points := pts ++ [pts.getD 0 (0, 0)], center := c }

end GridServiceVariant

/-- JavaScript `Math.round`: round half away from zero towards `+∞`,
i.e. `⌊q + 1/2⌋`. -/
def jsRound (q : ℚ) : ℤ := ⌊q + 1 / 2⌋

namespace RenderService

/-- `ContourLine` as consumed by `RenderService` (the d3-based
`ContourService` variant): a level, a list of polygons each made of
rings of `(x, y) = (lng, lat)` points, and a major flag. -/
structure ContourLine where
  level : ℚ
  path : List (List (List (ℚ × ℚ)))
  isMajor : Bool
deriving DecidableEq, Repr

/-- `CanvasContextInfo` returned by `setupCanvasContext`: the shared
geographic-to-pixel scaling functions along with the bounds and canvas
size. -/
structure CanvasContextInfo where
  bounds : Bounds
  width : ℚ
  height : ℚ
  scaleX : ℚ → ℚ
  scaleY : ℚ → ℚ

/-- `RenderService.setupCanvasContext`: builds the single linear
projection `scaleX(x) = (x - west) / (east - west) * width`,
`scaleY(y) = (north - y) / (north - south) * height` shared by every
layer of the render. -/
def setupCanvasContext (bounds : Bounds) (width height : ℚ) :
    CanvasContextInfo :=
  { bounds := bounds
    width := width
    height := height
    scaleX := fun x => (x - bounds.west) / (bounds.east - bounds.west) * width
    scaleY := fun y => (bounds.north - y) / (bounds.north - bounds.south) * height }

/-- The pixel positions traced by `drawContours`: every point of every
ring of every polygon of every contour is projected through the
`scaleX` / `scaleY` functions of the context. -/
def drawContoursPoints (ci : CanvasContextInfo)
    (contours : List ContourLine) : List (List (List (List (ℚ × ℚ)))) :=
  contours.map fun contour =>
    contour.path.map fun polygon =>
      polygon.map fun ring =>
        ring.map fun p => (ci.scaleX p.1, ci.scaleY p.2)

/-- The pixel positions traced by `drawGrid`: every boundary point of
every cell is projected through the same `scaleX` / `scaleY` functions
of the context. -/
def drawGridPoints (ci : CanvasContextInfo)
    (grid : List GridServiceVariant.GridCell) : List (List (ℚ × ℚ)) :=
  grid.map fun cell =>
    cell.points.map fun p => (ci.scaleX p.1, ci.scaleY p.2)

/-- The canvas size set up by `RenderService.createHighResolutionCanvas`
before it calls `renderToCanvas`: the requested render width/height are
scaled by `dpiScale = dpi / 72` and rounded; JavaScript
`options.width || this.defaultOptions.width` treats a zero size as
absent and substitutes the 800 × 600 defaults of `defaultOptions`. -/
def createHighResolutionCanvasDims (width height : ℤ) (dpi : ℚ) : ℤ × ℤ :=
  let dpiScale : ℚ := dpi / 72
  (jsRound ((if width = 0 then (800 : ℚ) else (width : ℚ)) * dpiScale),
   jsRound ((if height = 0 then (600 : ℚ) else (height : ℚ)) * dpiScale))

end RenderService

namespace ExportService

/-- Paper sizes nameable in an export request.  The source's TypeScript
union for `paperSize` is `'a4' | 'letter' | 'a3' | 'tabloid' | 'custom'`;
`legal` is included here to model a request for the Legal size, which
the `switch` in `calculateDimensions` does not recognise and sends to
its `default` branch. -/
inductive PaperSize where
  | a4
  | letter
  | a3
  | tabloid
  | legal
  | custom
deriving DecidableEq, Repr

/-- Page orientation of an export request. -/
inductive PageOrient where
  | portrait
  | landscape
deriving DecidableEq, Repr

/-- The fields of `ExportOptions` consumed by `calculateDimensions` and
`exportToPNG` (filename, format, metadata and title fields are omitted
as irrelevant to sizing). -/
structure ExportOptions where
  paperSize : PaperSize
  customWidth : Option ℚ
  customHeight : Option ℚ
  orientation : PageOrient
  dpi : ℚ
deriving DecidableEq, Repr

/-- JavaScript `v || d` on an optional number, as used for the custom
page dimensions (`options.customWidth || 210`): `undefined`, `null` and
`0` are all falsy and yield the default. -/
def jsOrDefault (v : Option ℚ) (d : ℚ) : ℚ :=
  match v with
  | none => d
  | some q => if q = 0 then d else q

/-- The `switch (options.paperSize)` of `calculateDimensions`: page
width and height in mm before the orientation swap (`letter` is
215.9 × 279.4, `tabloid` 279.4 × 431.8; a size missing from the
`switch` — such as Legal — falls through to the A4 default 210 × 297;
the custom branch is `customWidth || 210` / `customHeight || 297` with
JavaScript falsy-zero semantics). -/
def paperWH (options : ExportOptions) : ℚ × ℚ :=
  match options.paperSize with
  | PaperSize.a4 => (210, 297)
  | PaperSize.letter => (2159 / 10, 2794 / 10)
  | PaperSize.a3 => (297, 420)
  | PaperSize.tabloid => (2794 / 10, 4318 / 10)
  | PaperSize.custom =>
    (jsOrDefault options.customWidth 210, jsOrDefault options.customHeight 297)
  | PaperSize.legal => (210, 297)

/-- Convenience constructor for `ExportOptions`. -/
def mkOptions (ps : PaperSize) (cw ch : Option ℚ) (orient : PageOrient)
    (d : ℚ) : ExportOptions :=
  { paperSize := ps, customWidth := cw, customHeight := ch,
    orientation := orient, dpi := d }

/-- `ExportService.calculateDimensions`: the paper-size table above,
swapped when the orientation is landscape and width < height. -/
def calculateDimensions (options : ExportOptions) : ℚ × ℚ :=
  let wh : ℚ × ℚ := paperWH options
  if options.orientation == PageOrient.landscape ∧ wh.1 < wh.2 then
    (wh.2, wh.1)
  else
    wh

/-- The render-option pixel dimensions `exportToPNG` passes to the
renderer: `Math.round(mm / 25.4 * dpi)` for each page dimension
(`customRenderOptions.width/height`). -/
def exportToPNGDims (options : ExportOptions) : ℤ × ℤ :=
  let wh := calculateDimensions options
  (jsRound (wh.1 / (254 / 10) * options.dpi),
   jsRound (wh.2 / (254 / 10) * options.dpi))

/-- The pixel dimensions of the canvas the PNG export actually
produces: `exportToPNG` hands the `Math.round(mm / 25.4 * dpi)` render
options together with `exportOptions.dpi` to
`RenderService.createHighResolutionCanvas`, which scales them by
`dpi / 72` once more before `renderToCanvas` sizes the canvas. -/
def exportToPNGCanvasDims (options : ExportOptions) : ℤ × ℤ :=
  RenderService.createHighResolutionCanvasDims (exportToPNGDims options).1
    (exportToPNGDims options).2 options.dpi

end ExportService

/-! ## Helper lemmas -/

/-- Length of a row-major double loop: `m` rows of `n` cells each. -/
theorem flatMapRange_length {α : Type} (m n : ℕ) (f : ℕ → ℕ → α) :
    ((List.range m).flatMap fun y => (List.range n).map (f y)).length = m * n := by
  induction m with
  | zero => simp
  | succ m ih =>
    rw [List.range_succ, List.flatMap_append, List.length_append, ih]
    simp [Nat.succ_mul]

/-- Row-major indexing through the double loop: the element at index
`y * n + x` is the cell produced for row `y`, column `x`. -/
theorem flatMapRange_getElem? {α : Type} (m n : ℕ) (f : ℕ → ℕ → α)
    {x y : ℕ} (hx : x < n) (hy : y < m) :
    ((List.range m).flatMap fun y => (List.range n).map (f y))[y * n + x]? =
      some (f y x) := by
  induction m with
  | zero => omega
  | succ m ih =>
    rw [List.range_succ, List.flatMap_append]
    by_cases hym : y < m
    · rw [List.getElem?_append_left]
      · exact ih hym
      · rw [flatMapRange_length]
        have h1 : y * n + x < y * n + n := by omega
        have h2 : y * n + n = (y + 1) * n := by ring
        have h3 : (y + 1) * n ≤ m * n := Nat.mul_le_mul_right n (by omega)
        omega
    · have hym' : y = m := by omega
      subst hym'
      rw [List.getElem?_append_right]
      · rw [flatMapRange_length]
        simp only [List.flatMap_cons, List.flatMap_nil, List.append_nil,
          Nat.add_sub_cancel_left]
        rw [List.getElem?_map, List.getElem?_range hx]
        rfl
      · rw [flatMapRange_length]
        omega

/-- Membership in the row-major double loop. -/
theorem flatMapRange_mem {α : Type} (m n : ℕ) (f : ℕ → ℕ → α) (a : α) :
    a ∈ ((List.range m).flatMap fun y => (List.range n).map (f y)) ↔
      ∃ y < m, ∃ x < n, a = f y x := by
  simp only [List.mem_flatMap, List.mem_map, List.mem_range]
  constructor
  · rintro ⟨y, hy, x, hx, rfl⟩
    exact ⟨y, hy, x, hx, rfl⟩
  · rintro ⟨y, hy, x, hx, rfl⟩
    exact ⟨y, hy, x, hx, rfl⟩

namespace ElevationService

/-- A fold of `minStep` started from a real value yields a real value. -/
theorem foldl_minStep_isSome (l : List ℚ) (q : ℚ) :
    ∃ m, l.foldl minStep (some q) = some m := by
  induction l generalizing q with
  | nil => exact ⟨q, rfl⟩
  | cons a t ih => exact ih (min q a)

/-- The fold result never exceeds the initial accumulator value. -/
theorem foldl_minStep_le_init (l : List ℚ) (q m : ℚ)
    (h : l.foldl minStep (some q) = some m) : m ≤ q := by
  induction l generalizing q with
  | nil =>
    simp only [List.foldl_nil, Option.some.injEq] at h
    exact h.ge
  | cons a t ih =>
    have := ih (min q a) (by simpa [minStep] using h)
    calc m ≤ min q a := this
      _ ≤ q := min_le_left _ _

/-- The fold result is a lower bound for every list element. -/
theorem foldl_minStep_le_mem (l : List ℚ) (acc : Option ℚ) (v m : ℚ)
    (hv : v ∈ l) (h : l.foldl minStep acc = some m) : m ≤ v := by
  induction l generalizing acc with
  | nil => cases hv
  | cons a t ih =>
    rw [List.foldl_cons] at h
    rcases List.mem_cons.mp hv with rfl | hvt
    · have hstep : ∃ c, minStep acc v = some c ∧ c ≤ v := by
        cases acc with
        | none => exact ⟨v, rfl, le_refl v⟩
        | some q => exact ⟨min q v, rfl, min_le_right _ _⟩
      obtain ⟨c, hc, hcv⟩ := hstep
      rw [hc] at h
      exact le_trans (foldl_minStep_le_init t c m h) hcv
    · exact ih (minStep acc a) hvt h

/-- The fold result is either the initial accumulator value or a list
element. -/
theorem foldl_minStep_mem (l : List ℚ) (acc : Option ℚ) (m : ℚ)
    (h : l.foldl minStep acc = some m) : acc = some m ∨ m ∈ l := by
  induction l generalizing acc with
  | nil => exact Or.inl h
  | cons a t ih =>
    rw [List.foldl_cons] at h
    rcases ih (minStep acc a) h with hacc | hmem
    · cases acc with
      | none =>
        simp only [minStep, Option.some.injEq] at hacc
        exact Or.inr (by simp [hacc])
      | some q =>
        simp only [minStep, Option.some.injEq] at hacc
        rcases min_choice q a with hq | ha
        · exact Or.inl (by rw [hq] at hacc; rw [hacc])
        · refine Or.inr ?_
          rw [ha] at hacc
          simp [hacc]
    · exact Or.inr (List.mem_cons_of_mem a hmem)

/-- A fold of `maxStep` started from a real value yields a real value. -/
theorem foldl_maxStep_isSome (l : List ℚ) (q : ℚ) :
    ∃ m, l.foldl maxStep (some q) = some m := by
  induction l generalizing q with
  | nil => exact ⟨q, rfl⟩
  | cons a t ih => exact ih (max q a)

/-- The fold result never drops below the initial accumulator value. -/
theorem foldl_maxStep_ge_init (l : List ℚ) (q m : ℚ)
    (h : l.foldl maxStep (some q) = some m) : q ≤ m := by
  induction l generalizing q with
  | nil =>
    simp only [List.foldl_nil, Option.some.injEq] at h
    exact h.le
  | cons a t ih =>
    have := ih (max q a) (by simpa [maxStep] using h)
    calc q ≤ max q a := le_max_left _ _
      _ ≤ m := this

/-- The fold result is an upper bound for every list element. -/
theorem foldl_maxStep_ge_mem (l : List ℚ) (acc : Option ℚ) (v m : ℚ)
    (hv : v ∈ l) (h : l.foldl maxStep acc = some m) : v ≤ m := by
  induction l generalizing acc with
  | nil => cases hv
  | cons a t ih =>
    rw [List.foldl_cons] at h
    rcases List.mem_cons.mp hv with rfl | hvt
    · have hstep : ∃ c, maxStep acc v = some c ∧ v ≤ c := by
        cases acc with
        | none => exact ⟨v, rfl, le_refl v⟩
        | some q => exact ⟨max q v, rfl, le_max_right _ _⟩
      obtain ⟨c, hc, hcv⟩ := hstep
      rw [hc] at h
      exact le_trans hcv (foldl_maxStep_ge_init t c m h)
    · exact ih (maxStep acc a) hvt h

/-- The fold result is either the initial accumulator value or a list
element. -/
theorem foldl_maxStep_mem (l : List ℚ) (acc : Option ℚ) (m : ℚ)
    (h : l.foldl maxStep acc = some m) : acc = some m ∨ m ∈ l := by
  induction l generalizing acc with
  | nil => exact Or.inl h
  | cons a t ih =>
    rw [List.foldl_cons] at h
    rcases ih (maxStep acc a) h with hacc | hmem
    · cases acc with
      | none =>
        simp only [maxStep, Option.some.injEq] at hacc
        exact Or.inr (by simp [hacc])
      | some q =>
        simp only [maxStep, Option.some.injEq] at hacc
        rcases max_choice q a with hq | ha
        · exact Or.inl (by rw [hq] at hacc; rw [hacc])
        · refine Or.inr ?_
          rw [ha] at hacc
          simp [hacc]
    · exact Or.inr (List.mem_cons_of_mem a hmem)

/-- The scaled raster dimension `⌊a * min(1, 1000 / M)⌋` never exceeds
the 1000-sample cap when `a ≤ M`. -/
theorem floor_mul_scale_le (a M : ℤ) (ha : 0 ≤ a) (hM : 1 ≤ M)
    (haM : a ≤ M) : ⌊(a : ℚ) * min 1 (1000 / (M : ℚ))⌋ ≤ 1000 := by
  have hMq : (0 : ℚ) < (M : ℚ) := by exact_mod_cast hM
  have hscale : min 1 (1000 / (M : ℚ)) ≤ 1000 / (M : ℚ) := min_le_right _ _
  have haq : (0 : ℚ) ≤ (a : ℚ) := by exact_mod_cast ha
  have h1 : (a : ℚ) * min 1 (1000 / (M : ℚ)) ≤ (a : ℚ) * (1000 / (M : ℚ)) :=
    mul_le_mul_of_nonneg_left hscale haq
  have h2 : (a : ℚ) * (1000 / (M : ℚ)) ≤ 1000 := by
    rw [mul_div_assoc']
    rw [div_le_iff₀ hMq]
    have : (a : ℚ) ≤ (M : ℚ) := by exact_mod_cast haM
    nlinarith
  have h3 : (a : ℚ) * min 1 (1000 / (M : ℚ)) ≤ 1000 := le_trans h1 h2
  calc ⌊(a : ℚ) * min 1 (1000 / (M : ℚ))⌋ ≤ ⌊(1000 : ℚ)⌋ :=
        Int.floor_le_floor h3
    _ = 1000 := by norm_num

/-- Row-major length of the simulated sample array. -/
theorem simData_length (sinq cosq sqrtq : ℚ → ℚ) (width height : ℕ) :
    (simData sinq cosq sqrtq width height).length = width * height := by
  rw [simData, flatMapRange_length, Nat.mul_comm]

/-- Every simulated sample is clamped to be nonnegative. -/
theorem simData_nonneg (sinq cosq sqrtq : ℚ → ℚ) (width height : ℕ) :
    ∀ s ∈ simData sinq cosq sqrtq width height, 0 ≤ s := by
  intro s hs
  rw [simData, flatMapRange_mem] at hs
  obtain ⟨y, _, x, _, rfl⟩ := hs
  exact le_max_left 0 _

/-- Valid bounds give a positive raw width. -/
theorem one_le_rawWidth (bounds : Bounds) (hwe : bounds.west < bounds.east) :
    1 ≤ rawWidth bounds := by
  have : (0 : ℚ) < (bounds.east - bounds.west) * 3600 := by nlinarith
  exact Int.ceil_pos.mpr this

/-- Valid bounds give a positive raw height. -/
theorem one_le_rawHeight (bounds : Bounds) (hns : bounds.south < bounds.north) :
    1 ≤ rawHeight bounds := by
  have : (0 : ℚ) < (bounds.north - bounds.south) * 3600 := by nlinarith
  exact Int.ceil_pos.mpr this

/-- The scaled width never exceeds the 1000-sample cap. -/
theorem scaledWidth_le_cap (bounds : Bounds) (hwe : bounds.west < bounds.east)
    (hns : bounds.south < bounds.north) : (scaledWidth bounds).toNat ≤ 1000 := by
  have hw := one_le_rawWidth bounds hwe
  have hh := one_le_rawHeight bounds hns
  rw [Int.toNat_le]
  exact floor_mul_scale_le (rawWidth bounds) (max (rawWidth bounds) (rawHeight bounds))
    (by omega) (by omega) (le_max_left _ _)

/-- The scaled height never exceeds the 1000-sample cap. -/
theorem scaledHeight_le_cap (bounds : Bounds) (hwe : bounds.west < bounds.east)
    (hns : bounds.south < bounds.north) : (scaledHeight bounds).toNat ≤ 1000 := by
  have hw := one_le_rawWidth bounds hwe
  have hh := one_le_rawHeight bounds hns
  rw [Int.toNat_le]
  exact floor_mul_scale_le (rawHeight bounds) (max (rawWidth bounds) (rawHeight bounds))
    (by omega) (by omega) (le_max_right _ _)

end ElevationService

/-! ## Claim theorems -/

open ElevationService in
/-- C10: every `ElevationData` returned by `getElevationData` has
row-major data of length `width × height`, dimensions no larger than
1000 samples, only nonnegative samples, and `minElevation` /
`maxElevation` equal to the exact minimum and maximum of the samples
(in particular `minElevation ≤ s ≤ maxElevation` for every sample). -/
theorem c10_elevation_data_invariants (sinq cosq sqrtq : ℚ → ℚ)
    (bounds : Bounds) (hwe : bounds.west < bounds.east)
    (hns : bounds.south < bounds.north) :
    (getElevationData sinq cosq sqrtq bounds).data.length =
        (getElevationData sinq cosq sqrtq bounds).width *
          (getElevationData sinq cosq sqrtq bounds).height ∧
    (getElevationData sinq cosq sqrtq bounds).width ≤ 1000 ∧
    (getElevationData sinq cosq sqrtq bounds).height ≤ 1000 ∧
    (∀ s ∈ (getElevationData sinq cosq sqrtq bounds).data, 0 ≤ s) ∧
    (∀ s ∈ (getElevationData sinq cosq sqrtq bounds).data, ∀ mn,
      (getElevationData sinq cosq sqrtq bounds).minElevation = some mn →
        mn ≤ s) ∧
    (∀ s ∈ (getElevationData sinq cosq sqrtq bounds).data, ∀ mx,
      (getElevationData sinq cosq sqrtq bounds).maxElevation = some mx →
        s ≤ mx) ∧
    ((getElevationData sinq cosq sqrtq bounds).data ≠ [] →
      (∃ mn, (getElevationData sinq cosq sqrtq bounds).minElevation = some mn ∧
        mn ∈ (getElevationData sinq cosq sqrtq bounds).data) ∧
      (∃ mx, (getElevationData sinq cosq sqrtq bounds).maxElevation = some mx ∧
        mx ∈ (getElevationData sinq cosq sqrtq bounds).data)) := by
  have hdata : (getElevationData sinq cosq sqrtq bounds).data =
      simData sinq cosq sqrtq (scaledWidth bounds).toNat
        (scaledHeight bounds).toNat := rfl
  have hw : (getElevationData sinq cosq sqrtq bounds).width =
      (scaledWidth bounds).toNat := rfl
  have hh : (getElevationData sinq cosq sqrtq bounds).height =
      (scaledHeight bounds).toNat := rfl
  have hmin : (getElevationData sinq cosq sqrtq bounds).minElevation =
      (getElevationData sinq cosq sqrtq bounds).data.foldl minStep none := rfl
  have hmax : (getElevationData sinq cosq sqrtq bounds).maxElevation =
      (getElevationData sinq cosq sqrtq bounds).data.foldl maxStep none := rfl
  refine ⟨?_, ?_, ?_, ?_, ?_, ?_, ?_⟩
  · rw [hdata, hw, hh, simData_length]
  · rw [hw]; exact scaledWidth_le_cap bounds hwe hns
  · rw [hh]; exact scaledHeight_le_cap bounds hwe hns
  · rw [hdata]; exact simData_nonneg _ _ _ _ _
  · intro s hs mn hmn
    rw [hmin] at hmn
    exact foldl_minStep_le_mem _ _ _ _ hs hmn
  · intro s hs mx hmx
    rw [hmax] at hmx
    exact foldl_maxStep_ge_mem _ _ _ _ hs hmx
  · intro hne
    constructor
    · rcases hl : (getElevationData sinq cosq sqrtq bounds).data with _ | ⟨a, t⟩
      · exact absurd hl hne
      · obtain ⟨m, hm⟩ := foldl_minStep_isSome t a
        refine ⟨m, ?_, ?_⟩
        · rw [hmin, hl, List.foldl_cons]
          exact hm
        · have := foldl_minStep_mem t (some a) m hm
          rcases this with hsome | hmem
          · simp only [Option.some.injEq] at hsome
            rw [hsome]
            exact List.mem_cons_self m t
          · exact List.mem_cons_of_mem a hmem
    · rcases hl : (getElevationData sinq cosq sqrtq bounds).data with _ | ⟨a, t⟩
      · exact absurd hl hne
      · obtain ⟨m, hm⟩ := foldl_maxStep_isSome t a
        refine ⟨m, ?_, ?_⟩
        · rw [hmax, hl, List.foldl_cons]
          exact hm
        · have := foldl_maxStep_mem t (some a) m hm
          rcases this with hsome | hmem
          · simp only [Option.some.injEq] at hsome
            rw [hsome]
            exact List.mem_cons_self m t
          · exact List.mem_cons_of_mem a hmem

/-- Witness for C10 at a small concrete area: the hypotheses hold and the
size cap of the returned raster follows by applying the theorem. -/
theorem c10_elevation_data_invariants_witness :
    (({ north := 1 / 3600, south := 0, east := 1 / 3600, west := 0 } : Bounds).west <
        ({ north := 1 / 3600, south := 0, east := 1 / 3600, west := 0 } : Bounds).east ∧
      ({ north := 1 / 3600, south := 0, east := 1 / 3600, west := 0 } : Bounds).south <
        ({ north := 1 / 3600, south := 0, east := 1 / 3600, west := 0 } : Bounds).north) ∧
    (ElevationService.getElevationData (fun q => q) (fun q => q) (fun q => q)
        { north := 1 / 3600, south := 0, east := 1 / 3600, west := 0 }).width ≤ 1000 :=
  ⟨⟨by norm_num, by norm_num⟩,
    (c10_elevation_data_invariants (fun q => q) (fun q => q) (fun q => q)
      { north := 1 / 3600, south := 0, east := 1 / 3600, west := 0 }
      (by norm_num) (by norm_num)).2.1⟩

/-- C1 counterexample: for the 1°×1° bounds `{north 1, south 0, east 1,
west 0}` the raw raster would need 3600 samples per axis — well over the
1000-sample cap — yet `getElevationData` does not fail: it returns a
raster scaled down to 1000×1000. -/
theorem c1_counterexample :
    1000 < ElevationService.rawWidth { north := 1, south := 0, east := 1, west := 0 } ∧
    (ElevationService.getElevationData (fun q => q) (fun q => q) (fun q => q)
      { north := 1, south := 0, east := 1, west := 0 }).width = 1000 ∧
    (ElevationService.getElevationData (fun q => q) (fun q => q) (fun q => q)
      { north := 1, south := 0, east := 1, west := 0 }).height = 1000 := by
  refine ⟨?_, ?_, ?_⟩
  · show (1000 : ℤ) < ⌈(((1 : ℚ)) - 0) * 3600⌉
    norm_num
  · show (ElevationService.scaledWidth
      { north := 1, south := 0, east := 1, west := 0 }).toNat = 1000
    rw [ElevationService.scaledWidth, ElevationService.sizeScale,
      ElevationService.rawWidth, ElevationService.rawHeight]
    norm_num
    rfl
  · show (ElevationService.scaledHeight
      { north := 1, south := 0, east := 1, west := 0 }).toNat = 1000
    rw [ElevationService.scaledHeight, ElevationService.sizeScale,
      ElevationService.rawWidth, ElevationService.rawHeight]
    norm_num
    rfl

open ElevationService in
/-- C1 (amended): for every valid bounds — including bounds whose raw
raster would exceed the 1000-sample cap — `getElevationData` raises no
`AreaTooLarge` error: it scales both dimensions by
`min(1, 1000 / max(rawWidth, rawHeight))` and returns a raster whose
width and height never exceed 1000; the `try`/`catch` wrapper succeeds
whenever the body does. -/
theorem c1_oversized_bounds_are_scaled (sinq cosq sqrtq : ℚ → ℚ)
    (bounds : Bounds) (hwe : bounds.west < bounds.east)
    (hns : bounds.south < bounds.north) :
    (getElevationData sinq cosq sqrtq bounds).width =
        (scaledWidth bounds).toNat ∧
    (getElevationData sinq cosq sqrtq bounds).height =
        (scaledHeight bounds).toNat ∧
    (getElevationData sinq cosq sqrtq bounds).width ≤ 1000 ∧
    (getElevationData sinq cosq sqrtq bounds).height ≤ 1000 ∧
    getElevationDataE (fun b => Except.ok (getElevationData sinq cosq sqrtq b))
        bounds =
      Except.ok (getElevationData sinq cosq sqrtq bounds) :=
  ⟨rfl, rfl, scaledWidth_le_cap bounds hwe hns,
    scaledHeight_le_cap bounds hwe hns, rfl⟩

/-- Witness for the amended C1 at oversized concrete bounds. -/
theorem c1_oversized_bounds_are_scaled_witness :
    (({ north := 2, south := 0, east := 2, west := 0 } : Bounds).west <
        ({ north := 2, south := 0, east := 2, west := 0 } : Bounds).east ∧
      ({ north := 2, south := 0, east := 2, west := 0 } : Bounds).south <
        ({ north := 2, south := 0, east := 2, west := 0 } : Bounds).north) ∧
    (ElevationService.getElevationData (fun q => q) (fun q => q) (fun q => q)
      { north := 2, south := 0, east := 2, west := 0 }).width ≤ 1000 :=
  ⟨⟨by norm_num, by norm_num⟩,
    (c1_oversized_bounds_are_scaled (fun q => q) (fun q => q) (fun q => q)
      { north := 2, south := 0, east := 2, west := 0 }
      (by norm_num) (by norm_num)).2.2.1⟩

/-- C2 counterexample: when the (abstracted) body of the elevation fetch
fails, `getElevationData` rethrows immediately — the error surfaces
after only the first provider has failed, and no other provider is
consulted. -/
theorem c2_counterexample :
    ElevationService.getElevationDataE
        (fun _ => Except.error (r"network error"))
        { north := 1, south := 0, east := 1, west := 0 } =
      Except.error (ElevationService.fetchFailMsg ++ r"network error") := rfl

/-- C2 (amended): if the body of the elevation fetch errors,
`getElevationData` rethrows a `Failed to fetch elevation data` error at
once; no fallback provider is tried and no `DataUnavailable` error
exists. -/
theorem c2_first_failure_rethrows
    (fetchStep : Bounds → Except String ElevationService.ElevationData)
    (bounds : Bounds) (e : String) (h : fetchStep bounds = Except.error e) :
    ElevationService.getElevationDataE fetchStep bounds =
      Except.error (ElevationService.fetchFailMsg ++ e) := by
  unfold ElevationService.getElevationDataE
  rw [h]

/-- Witness for the amended C2 with a concrete failing fetch body. -/
theorem c2_first_failure_rethrows_witness :
    ((fun (_ : Bounds) =>
        (Except.error (r"timeout") :
          Except String ElevationService.ElevationData))
      { north := 1, south := 0, east := 1, west := 0 } =
        Except.error (r"timeout")) ∧
    ElevationService.getElevationDataE (fun _ => Except.error (r"timeout"))
        { north := 1, south := 0, east := 1, west := 0 } =
      Except.error (ElevationService.fetchFailMsg ++ r"timeout") :=
  ⟨rfl, c2_first_failure_rethrows _ _ _ rfl⟩

namespace ContourService

/-- Membership in the threshold loop: exactly the arithmetic sequence
values `i + k * interval` that do not exceed `mx`. -/
theorem thresholdsFrom_mem (interval : ℚ) (hpos : 0 < interval) :
    ∀ i mx t : ℚ, (t ∈ thresholdsFrom interval i mx ↔
      (∃ k : ℕ, t = i + (k : ℚ) * interval) ∧ t ≤ mx) := by
  intro i mx
  induction i, mx using thresholdsFrom.induct interval with
  | case1 i mx h ih =>
    intro t
    rw [thresholdsFrom, dif_pos h, List.mem_cons, ih t]
    constructor
    · rintro (rfl | ⟨⟨k, rfl⟩, hle⟩)
      · exact ⟨⟨0, by push_cast; ring⟩, h.2⟩
      · exact ⟨⟨k + 1, by push_cast; ring⟩, hle⟩
    · rintro ⟨⟨k, rfl⟩, hle⟩
      cases k with
      | zero => left; push_cast; ring
      | succ j => right; exact ⟨⟨j, by push_cast; ring⟩, hle⟩
  | case2 i mx h =>
    intro t
    rw [thresholdsFrom, dif_neg h]
    simp only [List.not_mem_nil, false_iff]
    rintro ⟨⟨k, rfl⟩, hle⟩
    have hmx : mx < i := by
      by_contra hcon
      exact h ⟨hpos, by linarith⟩
    have hk : (0 : ℚ) ≤ (k : ℚ) * interval :=
      mul_nonneg (Nat.cast_nonneg k) (le_of_lt hpos)
    linarith

/-- The threshold loop output is strictly ascending and bounded below by
its starting value. -/
theorem thresholdsFrom_sorted (interval : ℚ) (hpos : 0 < interval) :
    ∀ i mx : ℚ, List.Sorted (· < ·) (thresholdsFrom interval i mx) ∧
      ∀ t ∈ thresholdsFrom interval i mx, i ≤ t := by
  intro i mx
  induction i, mx using thresholdsFrom.induct interval with
  | case1 i mx h ih =>
    obtain ⟨hs, hb⟩ := ih
    rw [thresholdsFrom, dif_pos h]
    refine ⟨List.sorted_cons.mpr ⟨fun b hbm => ?_, hs⟩, ?_⟩
    · have := hb b hbm
      linarith
    · intro t ht
      rcases List.mem_cons.mp ht with rfl | ht'
      · exact le_refl t
      · have := hb t ht'
        linarith
  | case2 i mx h =>
    rw [thresholdsFrom, dif_neg h]
    exact ⟨List.sorted_nil, by intro t ht; cases ht⟩

/-- The elevations of the produced contour lines are the thresholds that
yielded at least one ring. -/
theorem map_elevation_filterMap (cc : ℚ → List (List (ℚ × ℚ))) (l : List ℚ) :
    ((l.filterMap fun t =>
        if (cc t).isEmpty then none
        else some ({ elevation := t, coordinates := cc t } : ContourLine)).map
      fun c => c.elevation) = l.filter fun t => !(cc t).isEmpty := by
  induction l with
  | nil => rfl
  | cons a l ih =>
    rw [List.filterMap_cons, List.filter_cons]
    by_cases h : (cc a).isEmpty = true
    · rw [if_pos h]
      have h2 : (!(cc a).isEmpty) = false := by rw [h]; rfl
      rw [h2, if_neg (by simp)]
      exact ih
    · rw [if_neg h]
      rw [Bool.not_eq_true] at h
      have h2 : (!(cc a).isEmpty) = true := by rw [h]; rfl
      rw [h2, if_pos rfl]
      exact congrArg (List.cons a) ih

/-- Every corner index read by the contouring loop stays inside a
well-formed row-major raster. -/
theorem corner_index_lt (width height x y : ℕ) (hx : x + 1 < width)
    (hy : y + 1 < height) : y * width + x + width + 1 < width * height := by
  obtain ⟨w', rfl⟩ : ∃ w', width = w' + 2 := ⟨width - 2, by omega⟩
  obtain ⟨h', rfl⟩ : ∃ h', height = h' + 2 := ⟨height - 2, by omega⟩
  have h1 : y * (w' + 2) ≤ h' * (w' + 2) := Nat.mul_le_mul_right _ (by omega)
  nlinarith

/-- On a well-formed raster every corner sample of an in-range cell is a
raster sample. -/
theorem cellCorners_mem (data : List ℚ) (width height x y : ℕ)
    (hlen : data.length = width * height) (hx : x + 1 < width)
    (hy : y + 1 < height) :
    ∀ v ∈ cellCorners data width x y, v ∈ data := by
  have hmax := corner_index_lt width height x y hx hy
  intro v hv
  rw [cellCorners] at hv
  simp only [List.mem_cons, List.not_mem_nil, or_false] at hv
  rcases hv with rfl | rfl | rfl | rfl
  · rw [List.getD_eq_getElem data 0 (by omega)]
    exact List.getElem_mem _
  · rw [List.getD_eq_getElem data 0 (by omega)]
    exact List.getElem_mem _
  · rw [List.getD_eq_getElem data 0 (by omega)]
    exact List.getElem_mem _
  · rw [List.getD_eq_getElem data 0 (by omega)]
    exact List.getElem_mem _

end ContourService

open ContourService ElevationService in
/-- C3: a 2×2 cell of adjacent samples contributes (exactly one
single-point ring at the cell centre) to a threshold's contour if and
only if some corner sample is `≥` the threshold and some corner sample
is `<` it, and the emitted position is derived from the raster indices
through the bounds and the per-sample degree steps
`(east - west) / width` and `(north - south) / height`. -/
theorem c3_marching_squares_crossing (eld : ElevationData) (t : ℚ) (x y : ℕ)
    (hwe : eld.bounds.west < eld.bounds.east)
    (hns : eld.bounds.south < eld.bounds.north)
    (hx : x + 1 < eld.width) (hy : y + 1 < eld.height) :
    ([(eld.bounds.west + ((x : ℚ) + 1 / 2) *
        ((eld.bounds.east - eld.bounds.west) / (eld.width : ℚ)),
      eld.bounds.north - ((y : ℚ) + 1 / 2) *
        ((eld.bounds.north - eld.bounds.south) / (eld.height : ℚ)))] ∈
        contourCoordinates eld t) ↔
      ((∃ v ∈ cellCorners eld.data eld.width x y, t ≤ v) ∧
        (∃ v ∈ cellCorners eld.data eld.width x y, v < t)) := by
  have hwpos : (0 : ℚ) < (eld.width : ℚ) := by
    have : 0 < eld.width := by omega
    exact_mod_cast this
  have hhpos : (0 : ℚ) < (eld.height : ℚ) := by
    have : 0 < eld.height := by omega
    exact_mod_cast this
  have hsx : (eld.bounds.east - eld.bounds.west) / (eld.width : ℚ) ≠ 0 :=
    div_ne_zero (by linarith) (ne_of_gt hwpos)
  have hsy : (eld.bounds.north - eld.bounds.south) / (eld.height : ℚ) ≠ 0 :=
    div_ne_zero (by linarith) (ne_of_gt hhpos)
  constructor
  · intro hmem
    rw [contourCoordinates, List.mem_flatMap] at hmem
    obtain ⟨y', hy', hxin⟩ := hmem
    rw [List.mem_filterMap] at hxin
    obtain ⟨x', hx', hsome⟩ := hxin
    rw [List.mem_range] at hy' hx'
    by_cases hc : cellCrosses eld.data eld.width t x' y'
    · rw [if_pos hc] at hsome
      simp only [Option.some.injEq, List.cons.injEq, and_true] at hsome
      rw [cellCenterPoint, Prod.mk.injEq] at hsome
      obtain ⟨h1, h2⟩ := hsome
      have hx'' : x' = x := by
        have := mul_right_cancel₀ hsx (by linarith : ((x' : ℚ) + 1 / 2) *
          ((eld.bounds.east - eld.bounds.west) / (eld.width : ℚ)) =
            ((x : ℚ) + 1 / 2) *
              ((eld.bounds.east - eld.bounds.west) / (eld.width : ℚ)))
        have hq : (x' : ℚ) = (x : ℚ) := by linarith
        exact_mod_cast hq
      have hy'' : y' = y := by
        have := mul_right_cancel₀ hsy (by linarith : ((y' : ℚ) + 1 / 2) *
          ((eld.bounds.north - eld.bounds.south) / (eld.height : ℚ)) =
            ((y : ℚ) + 1 / 2) *
              ((eld.bounds.north - eld.bounds.south) / (eld.height : ℚ)))
        have hq : (y' : ℚ) = (y : ℚ) := by linarith
        exact_mod_cast hq
      subst hx''
      subst hy''
      rw [cellCrosses] at hc
      simp only [Bool.and_eq_true, List.any_eq_true, decide_eq_true_eq] at hc
      exact hc
    · rw [if_neg hc] at hsome
      cases hsome
  · rintro ⟨h1, h2⟩
    have hc : cellCrosses eld.data eld.width t x y = true := by
      rw [cellCrosses]
      simp only [Bool.and_eq_true, List.any_eq_true, decide_eq_true_eq]
      exact ⟨h1, h2⟩
    rw [contourCoordinates, List.mem_flatMap]
    refine ⟨y, by rw [List.mem_range]; omega, ?_⟩
    rw [List.mem_filterMap]
    refine ⟨x, by rw [List.mem_range]; omega, ?_⟩
    rw [if_pos hc]
    rfl

/-- Witness for C3 on a concrete 2×2 raster whose single cell crosses
the threshold 5: the cell-centre ring is in the contour output. -/
theorem c3_marching_squares_crossing_witness :
    ((0 : ℚ) < 1 ∧ (0 : ℚ) < 1 ∧ 0 + 1 < 2 ∧ 0 + 1 < 2) ∧
    [((0 : ℚ) + ((0 : ℚ) + 1 / 2) * ((1 - 0) / (2 : ℚ)),
      (1 : ℚ) - ((0 : ℚ) + 1 / 2) * ((1 - 0) / (2 : ℚ)))] ∈
      ContourService.contourCoordinates
        { data := [0, 0, 0, 10], width := 2, height := 2,
          bounds := { north := 1, south := 0, east := 1, west := 0 },
          minElevation := some 0, maxElevation := some 10 } 5 :=
  ⟨⟨by norm_num, by norm_num, by norm_num, by norm_num⟩,
    (c3_marching_squares_crossing
      { data := [0, 0, 0, 10], width := 2, height := 2,
        bounds := { north := 1, south := 0, east := 1, west := 0 },
        minElevation := some 0, maxElevation := some 10 } 5 0 0
      (by decide) (by decide) (by decide) (by decide)).mpr
      ⟨⟨10, by decide, by decide⟩, ⟨0, by decide, by decide⟩⟩⟩

open ContourService ElevationService in
/-- C4: for a raster with `minElevation ≤ maxElevation` and a positive
interval, the threshold set is exactly the arithmetic sequence starting
at `floor(minElevation / interval) * interval` stepping by `interval`,
its greatest member `last` satisfies `last ≤ maxElevation <
last + interval` (the top band is covered inclusively), and the returned
contour lines are ordered by strictly ascending level. -/
theorem c4_threshold_sequence (eld : ElevationData) (interval mn mx : ℚ)
    (hmn : eld.minElevation = some mn) (hmx : eld.maxElevation = some mx)
    (hle : mn ≤ mx) (hpos : 0 < interval) :
    ((⌊mn / interval⌋ : ℚ) * interval ∈
      thresholdsFrom interval ((⌊mn / interval⌋ : ℚ) * interval) mx) ∧
    (∀ t : ℚ,
      t ∈ thresholdsFrom interval ((⌊mn / interval⌋ : ℚ) * interval) mx ↔
        (∃ k : ℕ,
          t = (⌊mn / interval⌋ : ℚ) * interval + (k : ℚ) * interval) ∧
          t ≤ mx) ∧
    (∃ last ∈ thresholdsFrom interval ((⌊mn / interval⌋ : ℚ) * interval) mx,
      (∀ t ∈ thresholdsFrom interval ((⌊mn / interval⌋ : ℚ) * interval) mx,
        t ≤ last) ∧
      last ≤ mx ∧ mx < last + interval) ∧
    List.Sorted (· < ·)
      ((generateContours eld interval).map fun c => c.elevation) := by
  have hbase : (⌊mn / interval⌋ : ℚ) * interval ≤ mn := by
    have h1 : ((⌊mn / interval⌋ : ℤ) : ℚ) ≤ mn / interval := Int.floor_le _
    calc (⌊mn / interval⌋ : ℚ) * interval ≤ mn / interval * interval :=
          mul_le_mul_of_nonneg_right h1 (le_of_lt hpos)
      _ = mn := div_mul_cancel₀ mn (ne_of_gt hpos)
  set base : ℚ := (⌊mn / interval⌋ : ℚ) * interval with hbdef
  have hmem := thresholdsFrom_mem interval hpos base mx
  have hbasemem : base ∈ thresholdsFrom interval base mx :=
    (hmem base).mpr ⟨⟨0, by push_cast; ring⟩, by linarith⟩
  refine ⟨hbasemem, hmem, ?_, ?_⟩
  · set K : ℕ := (⌊(mx - base) / interval⌋).toNat with hKdef
    have hnn : 0 ≤ ⌊(mx - base) / interval⌋ :=
      Int.floor_nonneg.mpr (div_nonneg (by linarith) (le_of_lt hpos))
    have hK : (K : ℚ) = ((⌊(mx - base) / interval⌋ : ℤ) : ℚ) := by
      have := Int.toNat_of_nonneg hnn
      exact_mod_cast congrArg (fun z : ℤ => (z : ℚ)) this
    have hfloor_le : ((⌊(mx - base) / interval⌋ : ℤ) : ℚ) ≤
        (mx - base) / interval := Int.floor_le _
    have hflt : (mx - base) / interval <
        ((⌊(mx - base) / interval⌋ : ℤ) : ℚ) + 1 := Int.lt_floor_add_one _
    have hlastle : base + (K : ℚ) * interval ≤ mx := by
      have h2 : (K : ℚ) * interval ≤ mx - base := by
        rw [hK]
        calc ((⌊(mx - base) / interval⌋ : ℤ) : ℚ) * interval ≤
              (mx - base) / interval * interval :=
              mul_le_mul_of_nonneg_right hfloor_le (le_of_lt hpos)
          _ = mx - base := div_mul_cancel₀ _ (ne_of_gt hpos)
      linarith
    have hlastgt : mx < base + (K : ℚ) * interval + interval := by
      have h2 : mx - base < ((K : ℚ) + 1) * interval := by
        rw [hK]
        have h3 := (div_lt_iff₀ hpos).mp hflt
        linarith
      have h4 : ((K : ℚ) + 1) * interval = (K : ℚ) * interval + interval := by
        ring
      linarith
    refine ⟨base + (K : ℚ) * interval,
      (hmem _).mpr ⟨⟨K, rfl⟩, hlastle⟩, ?_, hlastle, hlastgt⟩
    intro t ht
    obtain ⟨⟨k, rfl⟩, htle⟩ := (hmem t).mp ht
    have hkK : (k : ℚ) ≤ (K : ℚ) := by
      by_contra hcon
      push_neg at hcon
      have hklt : K < k := by exact_mod_cast hcon
      have hk1 : (K : ℚ) + 1 ≤ (k : ℚ) := by exact_mod_cast hklt
      have h5 : ((K : ℚ) + 1) * interval ≤ (k : ℚ) * interval :=
        mul_le_mul_of_nonneg_right hk1 (le_of_lt hpos)
      have h6 : ((K : ℚ) + 1) * interval = (K : ℚ) * interval + interval := by
        ring
      linarith
    have h7 : (k : ℚ) * interval ≤ (K : ℚ) * interval :=
      mul_le_mul_of_nonneg_right hkK (le_of_lt hpos)
    linarith
  · have hg : generateContours eld interval =
        (thresholdsFrom interval base mx).filterMap fun t =>
          if (contourCoordinates eld t).isEmpty then none
          else some { elevation := t, coordinates := contourCoordinates eld t } := by
      unfold generateContours
      rw [hmn, hmx]
    rw [hg, map_elevation_filterMap]
    exact List.Pairwise.filter _ (thresholdsFrom_sorted interval hpos base mx).1

/-- Witness for C4 on a concrete 2×2 raster with levels 0 and 25 and
interval 10. -/
theorem c4_threshold_sequence_witness :
    ((({ data := [0, 25, 0, 25], width := 2, height := 2,
          bounds := { north := 1, south := 0, east := 1, west := 0 },
          minElevation := some 0, maxElevation := some 25 } :
            ElevationService.ElevationData).minElevation = some 0) ∧
      (({ data := [0, 25, 0, 25], width := 2, height := 2,
          bounds := { north := 1, south := 0, east := 1, west := 0 },
          minElevation := some 0, maxElevation := some 25 } :
            ElevationService.ElevationData).maxElevation = some 25) ∧
      (0 : ℚ) ≤ 25 ∧ (0 : ℚ) < 10) ∧
    List.Sorted (· < ·)
      ((ContourService.generateContours
        { data := [0, 25, 0, 25], width := 2, height := 2,
          bounds := { north := 1, south := 0, east := 1, west := 0 },
          minElevation := some 0, maxElevation := some 25 } 10).map
        fun c => c.elevation) :=
  ⟨⟨rfl, rfl, by norm_num, by norm_num⟩,
    (c4_threshold_sequence
      { data := [0, 25, 0, 25], width := 2, height := 2,
        bounds := { north := 1, south := 0, east := 1, west := 0 },
        minElevation := some 0, maxElevation := some 25 } 10 0 25
      rfl rfl (by norm_num) (by norm_num)).2.2.2⟩

open ContourService ElevationService in
/-- C5: a uniform well-formed raster (all samples equal) produces an
empty contour list — the computation is total, so no error is raised. -/
theorem c5_uniform_raster_empty (eld : ElevationData) (interval c : ℚ)
    (huni : ∀ s ∈ eld.data, s = c)
    (hlen : eld.data.length = eld.width * eld.height) :
    generateContours eld interval = [] := by
  have hcc : ∀ t : ℚ, contourCoordinates eld t = [] := by
    intro t
    rw [contourCoordinates, List.flatMap_eq_nil_iff]
    intro y hy
    rw [List.filterMap_eq_nil_iff]
    intro x hx
    rw [List.mem_range] at hy hx
    have hx1 : x + 1 < eld.width := by omega
    have hy1 : y + 1 < eld.height := by omega
    have hallc : ∀ v ∈ cellCorners eld.data eld.width x y, v = c := by
      intro v hv
      exact huni v (cellCorners_mem eld.data eld.width eld.height x y
        hlen hx1 hy1 v hv)
    have hfalse : ¬(cellCrosses eld.data eld.width t x y = true) := by
      intro hcr
      rw [cellCrosses] at hcr
      simp only [Bool.and_eq_true, List.any_eq_true, decide_eq_true_eq] at hcr
      obtain ⟨⟨v1, hv1m, hv1⟩, v2, hv2m, hv2⟩ := hcr
      rw [hallc v1 hv1m] at hv1
      rw [hallc v2 hv2m] at hv2
      linarith
    rw [if_neg hfalse]
  rcases hmn : eld.minElevation with _ | mn <;>
    rcases hmx : eld.maxElevation with _ | mx
  · unfold generateContours
    rw [hmn, hmx]
  · unfold generateContours
    rw [hmn, hmx]
  · unfold generateContours
    rw [hmn, hmx]
  · unfold generateContours
    rw [hmn, hmx]
    rw [List.filterMap_eq_nil_iff]
    intro t ht
    simp [hcc]

/-- Witness for C5 on a concrete flat 2×2 raster. -/
theorem c5_uniform_raster_empty_witness :
    ((∀ s ∈ ([7, 7, 7, 7] : List ℚ), s = 7) ∧
      ([7, 7, 7, 7] : List ℚ).length = 2 * 2) ∧
    ContourService.generateContours
      { data := [7, 7, 7, 7], width := 2, height := 2,
        bounds := { north := 1, south := 0, east := 1, west := 0 },
        minElevation := some 7, maxElevation := some 7 } 10 = [] :=
  ⟨⟨by decide, by decide⟩,
    c5_uniform_raster_empty
      { data := [7, 7, 7, 7], width := 2, height := 2,
        bounds := { north := 1, south := 0, east := 1, west := 0 },
        minElevation := some 7, maxElevation := some 7 } 10 7
      (by decide) (by decide)⟩

open GridService in
/-- C6: the square grid has exactly
`ceil(widthMeters / cellSizeMeters) × ceil(heightMeters /
cellSizeMeters)` cells (the cell size converted from feet by `× 0.3048`)
tiled row-major from the north-west corner; each cell's boundary is its
four corners listed clockwise from the north-west corner plus a closing
point equal to the first, and the grid may extend past the south/east
edge since the last column/row is not clipped. -/
theorem c6_square_grid (bounds : Bounds)
    (gridSize widthMeters heightMeters sqrt3 : ℚ)
    (hwe : bounds.west < bounds.east) (hns : bounds.south < bounds.north)
    (hg : 0 < gridSize) (hw : 0 < widthMeters) (hh : 0 < heightMeters) :
    (generateGrid bounds GridType.square gridSize widthMeters heightMeters
        sqrt3).length =
      (⌈widthMeters / (gridSize * (3048 / 10000))⌉).toNat *
        (⌈heightMeters / (gridSize * (3048 / 10000))⌉).toNat ∧
    (∀ x y : ℕ, x < (⌈widthMeters / (gridSize * (3048 / 10000))⌉).toNat →
      y < (⌈heightMeters / (gridSize * (3048 / 10000))⌉).toNat →
      (generateGrid bounds GridType.square gridSize widthMeters heightMeters
          sqrt3)[y * (⌈widthMeters / (gridSize * (3048 / 10000))⌉).toNat + x]? =
        some
          { id := "square-" ++ toString x ++ "-" ++ toString y
            coordinates :=
              [(bounds.west + (x : ℚ) * (gridSize * (3048 / 10000) *
                  ((bounds.east - bounds.west) / widthMeters)),
                bounds.north - (y : ℚ) * (gridSize * (3048 / 10000) *
                  ((bounds.north - bounds.south) / heightMeters))),
               (bounds.west + ((x : ℚ) + 1) * (gridSize * (3048 / 10000) *
                  ((bounds.east - bounds.west) / widthMeters)),
                bounds.north - (y : ℚ) * (gridSize * (3048 / 10000) *
                  ((bounds.north - bounds.south) / heightMeters))),
               (bounds.west + ((x : ℚ) + 1) * (gridSize * (3048 / 10000) *
                  ((bounds.east - bounds.west) / widthMeters)),
                bounds.north - ((y : ℚ) + 1) * (gridSize * (3048 / 10000) *
                  ((bounds.north - bounds.south) / heightMeters))),
               (bounds.west + (x : ℚ) * (gridSize * (3048 / 10000) *
                  ((bounds.east - bounds.west) / widthMeters)),
                bounds.north - ((y : ℚ) + 1) * (gridSize * (3048 / 10000) *
                  ((bounds.north - bounds.south) / heightMeters))),
               (bounds.west + (x : ℚ) * (gridSize * (3048 / 10000) *
                  ((bounds.east - bounds.west) / widthMeters)),
                bounds.north - (y : ℚ) * (gridSize * (3048 / 10000) *
                  ((bounds.north - bounds.south) / heightMeters)))]
            center :=
              ((bounds.west + (x : ℚ) * (gridSize * (3048 / 10000) *
                  ((bounds.east - bounds.west) / widthMeters)) +
                (bounds.west + ((x : ℚ) + 1) * (gridSize * (3048 / 10000) *
                  ((bounds.east - bounds.west) / widthMeters)))) / 2,
               (bounds.north - (y : ℚ) * (gridSize * (3048 / 10000) *
                  ((bounds.north - bounds.south) / heightMeters)) +
                (bounds.north - ((y : ℚ) + 1) * (gridSize * (3048 / 10000) *
                  ((bounds.north - bounds.south) / heightMeters)))) / 2) }) := by
  have hgg : generateGrid bounds GridType.square gridSize widthMeters
      heightMeters sqrt3 =
      (List.range (⌈heightMeters / (gridSize * (3048 / 10000))⌉).toNat).flatMap
        fun y =>
          (List.range
            (⌈widthMeters / (gridSize * (3048 / 10000))⌉).toNat).map fun x =>
            squareCell bounds
              (gridSize * (3048 / 10000) *
                ((bounds.north - bounds.south) / heightMeters))
              (gridSize * (3048 / 10000) *
                ((bounds.east - bounds.west) / widthMeters)) x y := rfl
  constructor
  · rw [hgg, flatMapRange_length, Nat.mul_comm]
  · intro x y hx hy
    rw [hgg, flatMapRange_getElem? _ _ _ hx hy]
    rfl

/-- Witness for C6 with a 2×2 grid over a 1°×1° area. -/
theorem c6_square_grid_witness :
    ((0 : ℚ) < 1 ∧ (0 : ℚ) < 1 ∧ (0 : ℚ) < 10000 / 3048 ∧
      (0 : ℚ) < 2 ∧ (0 : ℚ) < 2) ∧
    (GridService.generateGrid { north := 1, south := 0, east := 1, west := 0 }
        GridType.square (10000 / 3048) 2 2 0).length =
      (⌈(2 : ℚ) / (10000 / 3048 * (3048 / 10000))⌉).toNat *
        (⌈(2 : ℚ) / (10000 / 3048 * (3048 / 10000))⌉).toNat :=
  ⟨⟨by norm_num, by norm_num, by norm_num, by norm_num, by norm_num⟩,
    (c6_square_grid { north := 1, south := 0, east := 1, west := 0 }
      (10000 / 3048) 2 2 0 (by norm_num) (by norm_num) (by norm_num)
      (by norm_num) (by norm_num)).1⟩

/-- C7 counterexample: in the app's `GridService.generateHexGrid`
(bounds 1°×1°, cell size 2 m, both haversine spans 2 m, `√3`
instantiated at 7/4) the hex height in degrees is
`radius · √3 · latDegPerMeter = 7/8`, and the centre of the row-1 cell
sits a full `7/8` of a degree below the row-0 cell — not `0.75 × 7/8` as
the claim requires. -/
theorem c7_counterexample :
    ((GridService.generateHexGrid { north := 1, south := 0, east := 1, west := 0 }
        2 2 2 2 2 (7 / 4)).getD 0 GridService.dummyCell).center.2 -
      ((GridService.generateHexGrid { north := 1, south := 0, east := 1, west := 0 }
        2 2 2 2 2 (7 / 4)).getD 2 GridService.dummyCell).center.2 = 7 / 8 ∧
    ¬(((GridService.generateHexGrid { north := 1, south := 0, east := 1, west := 0 }
        2 2 2 2 2 (7 / 4)).getD 0 GridService.dummyCell).center.2 -
      ((GridService.generateHexGrid { north := 1, south := 0, east := 1, west := 0 }
        2 2 2 2 2 (7 / 4)).getD 2 GridService.dummyCell).center.2 =
        3 / 4 * (7 / 8)) := by
  have hgg : GridService.generateHexGrid
      { north := 1, south := 0, east := 1, west := 0 } 2 2 2 2 2 (7 / 4) =
      (List.range 2).flatMap fun row =>
        (List.range 2).map fun col =>
          GridService.hexCell { north := 1, south := 0, east := 1, west := 0 }
            (2 / 2) (((1 : ℚ) - 0) / 2) (((1 : ℚ) - 0) / 2)
            (2 / 2 * (7 / 4) * (((1 : ℚ) - 0) / 2))
            (2 / 2 * (3 / 2) * (((1 : ℚ) - 0) / 2)) (7 / 4) col row := rfl
  have h00 := flatMapRange_getElem? 2 2
    (fun row col =>
      GridService.hexCell { north := 1, south := 0, east := 1, west := 0 }
        (2 / 2) (((1 : ℚ) - 0) / 2) (((1 : ℚ) - 0) / 2)
        (2 / 2 * (7 / 4) * (((1 : ℚ) - 0) / 2))
        (2 / 2 * (3 / 2) * (((1 : ℚ) - 0) / 2)) (7 / 4) col row)
    (show 0 < 2 by norm_num) (show 0 < 2 by norm_num)
  have h10 := flatMapRange_getElem? 2 2
    (fun row col =>
      GridService.hexCell { north := 1, south := 0, east := 1, west := 0 }
        (2 / 2) (((1 : ℚ) - 0) / 2) (((1 : ℚ) - 0) / 2)
        (2 / 2 * (7 / 4) * (((1 : ℚ) - 0) / 2))
        (2 / 2 * (3 / 2) * (((1 : ℚ) - 0) / 2)) (7 / 4) col row)
    (show 0 < 2 by norm_num) (show 1 < 2 by norm_num)
  simp only [Nat.zero_mul, Nat.one_mul, Nat.zero_add, Nat.add_zero] at h00 h10
  have e0 : (GridService.generateHexGrid
      { north := 1, south := 0, east := 1, west := 0 }
      2 2 2 2 2 (7 / 4)).getD 0 GridService.dummyCell =
      GridService.hexCell { north := 1, south := 0, east := 1, west := 0 }
        (2 / 2) (((1 : ℚ) - 0) / 2) (((1 : ℚ) - 0) / 2)
        (2 / 2 * (7 / 4) * (((1 : ℚ) - 0) / 2))
        (2 / 2 * (3 / 2) * (((1 : ℚ) - 0) / 2)) (7 / 4) 0 0 := by
    rw [List.getD_eq_getElem?_getD, hgg, h00]
    rfl
  have e2 : (GridService.generateHexGrid
      { north := 1, south := 0, east := 1, west := 0 }
      2 2 2 2 2 (7 / 4)).getD 2 GridService.dummyCell =
      GridService.hexCell { north := 1, south := 0, east := 1, west := 0 }
        (2 / 2) (((1 : ℚ) - 0) / 2) (((1 : ℚ) - 0) / 2)
        (2 / 2 * (7 / 4) * (((1 : ℚ) - 0) / 2))
        (2 / 2 * (3 / 2) * (((1 : ℚ) - 0) / 2)) (7 / 4) 0 1 := by
    rw [List.getD_eq_getElem?_getD, hgg, h10]
    rfl
  rw [e0, e2]
  constructor
  · norm_num [GridService.hexCell]
  · norm_num [GridService.hexCell]

open GridService GridServiceVariant in
/-- C7 (amended): the app's `GridService.generateHexGrid` uses
`radius = cellSize / 2`, horizontal spacing `1.5 × radius` between
centres in a row, offsets every odd row horizontally by half the
horizontal spacing, but places adjacent rows a full hex height
(`radius × √3`, not `0.75 ×` it) apart and computes no circumradius;
the variant `GridService.generateHexGrid` bundled in the
`ElevationService.ts` source file does use `inradius = cellSize / 2`,
`circumradius = inradius × 2/√3`, vertical row spacing
`0.75 × hex height`, and the same half-spacing odd-row offset. -/
theorem c7_hex_spacing (bounds : Bounds)
    (cellsX cellsY : ℕ) (cellSizeMeters latMeters lngMeters sqrt3 : ℚ)
    (gridSizeKm cosLat : ℚ) :
    (∀ col row : ℕ, col < cellsX → row < cellsY →
      (generateHexGrid bounds cellsX cellsY cellSizeMeters latMeters
        lngMeters sqrt3)[row * cellsX + col]? =
        some (hexCell bounds (cellSizeMeters / 2)
          ((bounds.north - bounds.south) / latMeters)
          ((bounds.east - bounds.west) / lngMeters)
          (cellSizeMeters / 2 * sqrt3 *
            ((bounds.north - bounds.south) / latMeters))
          (cellSizeMeters / 2 * (3 / 2) *
            ((bounds.east - bounds.west) / lngMeters)) sqrt3 col row)) ∧
    (∀ col row : ℕ,
      (hexCell bounds (cellSizeMeters / 2)
          ((bounds.north - bounds.south) / latMeters)
          ((bounds.east - bounds.west) / lngMeters)
          (cellSizeMeters / 2 * sqrt3 *
            ((bounds.north - bounds.south) / latMeters))
          (cellSizeMeters / 2 * (3 / 2) *
            ((bounds.east - bounds.west) / lngMeters)) sqrt3 col row).center.2 -
        (hexCell bounds (cellSizeMeters / 2)
          ((bounds.north - bounds.south) / latMeters)
          ((bounds.east - bounds.west) / lngMeters)
          (cellSizeMeters / 2 * sqrt3 *
            ((bounds.north - bounds.south) / latMeters))
          (cellSizeMeters / 2 * (3 / 2) *
            ((bounds.east - bounds.west) / lngMeters)) sqrt3 col
          (row + 1)).center.2 =
        cellSizeMeters / 2 * sqrt3 *
          ((bounds.north - bounds.south) / latMeters)) ∧
    (∀ col row : ℕ, row % 2 = 0 →
      (hexCell bounds (cellSizeMeters / 2)
          ((bounds.north - bounds.south) / latMeters)
          ((bounds.east - bounds.west) / lngMeters)
          (cellSizeMeters / 2 * sqrt3 *
            ((bounds.north - bounds.south) / latMeters))
          (cellSizeMeters / 2 * (3 / 2) *
            ((bounds.east - bounds.west) / lngMeters)) sqrt3 col
          (row + 1)).center.1 -
        (hexCell bounds (cellSizeMeters / 2)
          ((bounds.north - bounds.south) / latMeters)
          ((bounds.east - bounds.west) / lngMeters)
          (cellSizeMeters / 2 * sqrt3 *
            ((bounds.north - bounds.south) / latMeters))
          (cellSizeMeters / 2 * (3 / 2) *
            ((bounds.east - bounds.west) / lngMeters)) sqrt3 col
          row).center.1 =
        cellSizeMeters / 2 * (3 / 2) *
          ((bounds.east - bounds.west) / lngMeters) / 2) ∧
    (∀ i j : ℕ,
      (hexCenter bounds gridSizeKm cosLat sqrt3 i j).2 -
        (hexCenter bounds gridSizeKm cosLat sqrt3 (i + 1) j).2 =
        3 / 4 * (gridSizeKm / 2 * 2 / sqrt3 * 2 / 111)) ∧
    (∀ i j : ℕ, i % 2 = 0 →
      (hexCenter bounds gridSizeKm cosLat sqrt3 (i + 1) j).1 -
        (hexCenter bounds gridSizeKm cosLat sqrt3 i j).1 =
        gridSizeKm / 2 * 2 / (111 * cosLat) / 2) := by
  refine ⟨?_, ?_, ?_, ?_, ?_⟩
  · intro col row hcol hrow
    have hgg : generateHexGrid bounds cellsX cellsY cellSizeMeters latMeters
        lngMeters sqrt3 =
        (List.range cellsY).flatMap fun row =>
          (List.range cellsX).map fun col =>
            hexCell bounds (cellSizeMeters / 2)
              ((bounds.north - bounds.south) / latMeters)
              ((bounds.east - bounds.west) / lngMeters)
              (cellSizeMeters / 2 * sqrt3 *
                ((bounds.north - bounds.south) / latMeters))
              (cellSizeMeters / 2 * (3 / 2) *
                ((bounds.east - bounds.west) / lngMeters)) sqrt3 col row := rfl
    rw [hgg, flatMapRange_getElem? _ _ _ hcol hrow]
  · intro col row
    show bounds.north - (row : ℚ) * (cellSizeMeters / 2 * sqrt3 *
        ((bounds.north - bounds.south) / latMeters)) -
      (bounds.north - ((row + 1 : ℕ) : ℚ) * (cellSizeMeters / 2 * sqrt3 *
        ((bounds.north - bounds.south) / latMeters))) = _
    push_cast
    ring
  · intro col row hrow
    have h1 : (row + 1) % 2 == 1 := by
      have : (row + 1) % 2 = 1 := by omega
      rw [this]
      rfl
    have h0 : (row % 2 == 1) = false := by
      rw [hrow]
      rfl
    show bounds.west + (if (row + 1) % 2 == 1 then cellSizeMeters / 2 *
        (3 / 2) * ((bounds.east - bounds.west) / lngMeters) / 2 else 0) +
        (col : ℚ) * (cellSizeMeters / 2 * (3 / 2) *
          ((bounds.east - bounds.west) / lngMeters)) -
      (bounds.west + (if row % 2 == 1 then cellSizeMeters / 2 * (3 / 2) *
        ((bounds.east - bounds.west) / lngMeters) / 2 else 0) +
        (col : ℚ) * (cellSizeMeters / 2 * (3 / 2) *
          ((bounds.east - bounds.west) / lngMeters))) = _
    rw [if_pos h1, if_neg (by rw [h0]; exact Bool.false_ne_true)]
    ring
  · intro i j
    show bounds.north - (i : ℚ) * (gridSizeKm / 2 * 2 / sqrt3 * 2 / 111 *
        (3 / 4)) - gridSizeKm / 2 * 2 / sqrt3 / 111 -
      (bounds.north - ((i + 1 : ℕ) : ℚ) * (gridSizeKm / 2 * 2 / sqrt3 * 2 /
        111 * (3 / 4)) - gridSizeKm / 2 * 2 / sqrt3 / 111) = _
    push_cast
    ring
  · intro i j hi
    have h1 : (i + 1) % 2 == 1 := by
      have : (i + 1) % 2 = 1 := by omega
      rw [this]
      rfl
    have h0 : (i % 2 == 1) = false := by
      rw [hi]
      rfl
    show bounds.west + (j : ℚ) * (gridSizeKm / 2 * 2 / (111 * cosLat)) +
        (if (i + 1) % 2 == 1 then gridSizeKm / 2 * 2 / (111 * cosLat) / 2
          else 0) + gridSizeKm / 2 / (111 * cosLat) -
      (bounds.west + (j : ℚ) * (gridSizeKm / 2 * 2 / (111 * cosLat)) +
        (if i % 2 == 1 then gridSizeKm / 2 * 2 / (111 * cosLat) / 2 else 0) +
        gridSizeKm / 2 / (111 * cosLat)) = _
    rw [if_pos h1, if_neg (by rw [h0]; exact Bool.false_ne_true)]
    ring

/-- Witness for the amended C7 at concrete parameters. -/
theorem c7_hex_spacing_witness :
    (0 % 2 = 0) ∧
    ((GridServiceVariant.hexCenter { north := 1, south := 0, east := 1, west := 0 }
        2 1 (7 / 4) 1 0).1 -
      (GridServiceVariant.hexCenter { north := 1, south := 0, east := 1, west := 0 }
        2 1 (7 / 4) 0 0).1 =
      (2 : ℚ) / 2 * 2 / (111 * 1) / 2) :=
  ⟨rfl,
    (c7_hex_spacing { north := 1, south := 0, east := 1, west := 0 }
      2 2 2 2 2 (7 / 4) 2 1).2.2.2.2 0 0 rfl⟩

open RenderService in
/-- C8: the renderer builds one linear projection
`scaleX(lon) = (lon - west) / (east - west) * width`,
`scaleY(lat) = (north - lat) / (north - south) * height`; it maps
`(west, north)` to pixel `(0, 0)` and `(east, south)` to
`(width, height)`, and both the contour layer and the grid layer project
every point through these same two functions. -/
theorem c8_single_linear_projection (bounds : Bounds) (w h : ℚ)
    (hwe : bounds.west < bounds.east) (hns : bounds.south < bounds.north) :
    (setupCanvasContext bounds w h).scaleX bounds.west = 0 ∧
    (setupCanvasContext bounds w h).scaleY bounds.north = 0 ∧
    (setupCanvasContext bounds w h).scaleX bounds.east = w ∧
    (setupCanvasContext bounds w h).scaleY bounds.south = h ∧
    (∀ lon : ℚ, (setupCanvasContext bounds w h).scaleX lon =
      (lon - bounds.west) / (bounds.east - bounds.west) * w) ∧
    (∀ lat : ℚ, (setupCanvasContext bounds w h).scaleY lat =
      (bounds.north - lat) / (bounds.north - bounds.south) * h) ∧
    (∀ contours : List ContourLine,
      drawContoursPoints (setupCanvasContext bounds w h) contours =
        contours.map fun contour =>
          contour.path.map fun polygon =>
            polygon.map fun ring =>
              ring.map fun p =>
                ((p.1 - bounds.west) / (bounds.east - bounds.west) * w,
                 (bounds.north - p.2) / (bounds.north - bounds.south) * h)) ∧
    (∀ grid : List GridServiceVariant.GridCell,
      drawGridPoints (setupCanvasContext bounds w h) grid =
        grid.map fun cell =>
          cell.points.map fun p =>
            ((p.1 - bounds.west) / (bounds.east - bounds.west) * w,
             (bounds.north - p.2) / (bounds.north - bounds.south) * h)) := by
  refine ⟨?_, ?_, ?_, ?_, fun lon => rfl, fun lat => rfl,
    fun contours => rfl, fun grid => rfl⟩
  · show (bounds.west - bounds.west) / (bounds.east - bounds.west) * w = 0
    rw [sub_self, zero_div, zero_mul]
  · show (bounds.north - bounds.north) / (bounds.north - bounds.south) * h = 0
    rw [sub_self, zero_div, zero_mul]
  · show (bounds.east - bounds.west) / (bounds.east - bounds.west) * w = w
    rw [div_self (by linarith), one_mul]
  · show (bounds.north - bounds.south) / (bounds.north - bounds.south) * h = h
    rw [div_self (by linarith), one_mul]

/-- Witness for C8 at concrete bounds and an 800×600 canvas. -/
theorem c8_single_linear_projection_witness :
    ((0 : ℚ) < 1 ∧ (0 : ℚ) < 1) ∧
    (RenderService.setupCanvasContext
        { north := 1, south := 0, east := 1, west := 0 } 800 600).scaleX 0 = 0 ∧
    (RenderService.setupCanvasContext
        { north := 1, south := 0, east := 1, west := 0 } 800 600).scaleX 1 = 800 :=
  ⟨⟨by norm_num, by norm_num⟩,
    (c8_single_linear_projection { north := 1, south := 0, east := 1, west := 0 }
      800 600 (by norm_num) (by norm_num)).1,
    (c8_single_linear_projection { north := 1, south := 0, east := 1, west := 0 }
      800 600 (by norm_num) (by norm_num)).2.2.1⟩

namespace ExportService

/-- With a portrait orientation `calculateDimensions` returns the paper
table entry unchanged. -/
theorem calculateDimensions_portrait (o : ExportOptions)
    (h : o.orientation = PageOrient.portrait) :
    calculateDimensions o = paperWH o := by
  unfold calculateDimensions
  rw [if_neg]
  rintro ⟨hb, _⟩
  rw [h] at hb
  cases hb

/-- With a landscape orientation and a portrait-shaped paper entry,
`calculateDimensions` swaps width and height. -/
theorem calculateDimensions_landscape (o : ExportOptions)
    (h : o.orientation = PageOrient.landscape)
    (hlt : (paperWH o).1 < (paperWH o).2) :
    calculateDimensions o = ((paperWH o).2, (paperWH o).1) := by
  unfold calculateDimensions
  rw [if_pos ⟨by rw [h]; rfl, hlt⟩]

/-- `Math.round` stays within half a unit of its argument. -/
theorem jsRound_close (q : ℚ) : |((jsRound q : ℤ) : ℚ) - q| ≤ 1 / 2 := by
  rw [jsRound]
  have h1 : ((⌊q + 1 / 2⌋ : ℤ) : ℚ) ≤ q + 1 / 2 := Int.floor_le _
  have h2 : q + 1 / 2 < ((⌊q + 1 / 2⌋ : ℤ) : ℚ) + 1 := Int.lt_floor_add_one _
  rw [abs_le]
  constructor <;> linarith

/-- `Math.round` of an integer value is that integer. -/
theorem jsRound_intCast (n : ℤ) : jsRound ((n : ℤ) : ℚ) = n := by
  rw [jsRound, Int.floor_eq_iff]
  constructor
  · linarith
  · linarith

end ExportService

/-- C9 counterexample: a `legal` export request is not recognised by
`calculateDimensions` — it falls through to the A4 default 210 × 297 mm
instead of the Legal page size (215.9 × 355.6 mm, or the 216 × 356 mm
used by the variant `ExportService`). -/
theorem c9_counterexample :
    ExportService.calculateDimensions
        (ExportService.mkOptions ExportService.PaperSize.legal none none
          ExportService.PageOrient.portrait 300) =
      ExportService.calculateDimensions
        (ExportService.mkOptions ExportService.PaperSize.a4 none none
          ExportService.PageOrient.portrait 300) ∧
    ExportService.calculateDimensions
        (ExportService.mkOptions ExportService.PaperSize.legal none none
          ExportService.PageOrient.portrait 300) ≠
      (2159 / 10, 3556 / 10) ∧
    ExportService.calculateDimensions
        (ExportService.mkOptions ExportService.PaperSize.legal none none
          ExportService.PageOrient.portrait 300) ≠
      (216, 356) := by
  have hleg : ExportService.calculateDimensions
      (ExportService.mkOptions ExportService.PaperSize.legal none none
        ExportService.PageOrient.portrait 300) = (210, 297) := by
    rw [ExportService.calculateDimensions_portrait _ rfl]
    rfl
  refine ⟨rfl, ?_, ?_⟩
  · rw [hleg]
    intro hcon
    rw [Prod.mk.injEq] at hcon
    have := hcon.1
    norm_num at this
  · rw [hleg]
    intro hcon
    rw [Prod.mk.injEq] at hcon
    have := hcon.1
    norm_num at this

open ExportService in
/-- C9 (amended): page dimensions come from the named paper size for
A4, Letter, A3, Tabloid and custom sizes (a zero custom dimension is
falsy in JavaScript and yields the A4 default), while a Legal request
falls back to the A4 dimensions; width and height are swapped when the
orientation is landscape (and the table entry is portrait-shaped).  The
PNG export requests render options of `Math.round(mm / 25.4 × dpi)`
pixels per axis — within half a pixel of `mm / 25.4 × dpi` — but
`RenderService.createHighResolutionCanvas` rescales those options by
`dpi / 72` once more (substituting the 800 × 600 defaults for a zero
size), so the exported canvas is
`Math.round(round(mm / 25.4 × dpi) × dpi / 72)` pixels per axis, which
agrees with the requested `round(mm / 25.4 × dpi)` only at 72 dpi. -/
theorem c9_paper_size_and_dpi (o : ExportOptions) (cw ch : Option ℚ)
    (d : ℚ) :
    (calculateDimensions (mkOptions PaperSize.a4 cw ch
        PageOrient.portrait d) = (210, 297) ∧
     calculateDimensions (mkOptions PaperSize.letter cw ch
        PageOrient.portrait d) = (2159 / 10, 2794 / 10) ∧
     calculateDimensions (mkOptions PaperSize.a3 cw ch
        PageOrient.portrait d) = (297, 420) ∧
     calculateDimensions (mkOptions PaperSize.tabloid cw ch
        PageOrient.portrait d) = (2794 / 10, 4318 / 10) ∧
     calculateDimensions (mkOptions PaperSize.legal cw ch
        PageOrient.portrait d) = (210, 297)) ∧
    (∀ cwq chq : ℚ,
      calculateDimensions (mkOptions PaperSize.custom (some cwq) (some chq)
        PageOrient.portrait d) =
      ((if cwq = 0 then 210 else cwq), (if chq = 0 then 297 else chq))) ∧
    (o.orientation = PageOrient.portrait →
      calculateDimensions o = paperWH o) ∧
    (o.orientation = PageOrient.landscape →
      (paperWH o).1 < (paperWH o).2 →
      calculateDimensions o = ((paperWH o).2, (paperWH o).1)) ∧
    (exportToPNGDims o).1 =
      ⌊(calculateDimensions o).1 / (254 / 10) * o.dpi + 1 / 2⌋ ∧
    (exportToPNGDims o).2 =
      ⌊(calculateDimensions o).2 / (254 / 10) * o.dpi + 1 / 2⌋ ∧
    (exportToPNGCanvasDims o).1 =
      jsRound ((if (exportToPNGDims o).1 = 0 then (800 : ℚ)
        else ((exportToPNGDims o).1 : ℚ)) * (o.dpi / 72)) ∧
    (exportToPNGCanvasDims o).2 =
      jsRound ((if (exportToPNGDims o).2 = 0 then (600 : ℚ)
        else ((exportToPNGDims o).2 : ℚ)) * (o.dpi / 72)) ∧
    (o.dpi = 72 →
      ((exportToPNGDims o).1 ≠ 0 →
        (exportToPNGCanvasDims o).1 = (exportToPNGDims o).1) ∧
      ((exportToPNGDims o).2 ≠ 0 →
        (exportToPNGCanvasDims o).2 = (exportToPNGDims o).2)) ∧
    |(((exportToPNGDims o).1 : ℤ) : ℚ) -
        (calculateDimensions o).1 / (254 / 10) * o.dpi| ≤ 1 / 2 ∧
    |(((exportToPNGDims o).2 : ℤ) : ℚ) -
        (calculateDimensions o).2 / (254 / 10) * o.dpi| ≤ 1 / 2 ∧
    |(((exportToPNGCanvasDims o).1 : ℤ) : ℚ) -
        (if (exportToPNGDims o).1 = 0 then (800 : ℚ)
          else ((exportToPNGDims o).1 : ℚ)) * (o.dpi / 72)| ≤ 1 / 2 ∧
    |(((exportToPNGCanvasDims o).2 : ℤ) : ℚ) -
        (if (exportToPNGDims o).2 = 0 then (600 : ℚ)
          else ((exportToPNGDims o).2 : ℚ)) * (o.dpi / 72)| ≤ 1 / 2 := by
  refine ⟨⟨?_, ?_, ?_, ?_, ?_⟩, ?_, fun h => calculateDimensions_portrait o h,
    fun h hlt => calculateDimensions_landscape o h hlt, rfl, rfl, rfl, rfl,
    ?_, ?_, ?_, ?_, ?_⟩
  · rw [calculateDimensions_portrait _ rfl]
    rfl
  · rw [calculateDimensions_portrait _ rfl]
    rfl
  · rw [calculateDimensions_portrait _ rfl]
    rfl
  · rw [calculateDimensions_portrait _ rfl]
    rfl
  · rw [calculateDimensions_portrait _ rfl]
    rfl
  · intro cwq chq
    rw [calculateDimensions_portrait _ rfl]
    rfl
  · intro hdpi
    constructor
    · intro hne
      have h1 : (exportToPNGCanvasDims o).1 =
          jsRound ((if (exportToPNGDims o).1 = 0 then (800 : ℚ)
            else ((exportToPNGDims o).1 : ℚ)) * (o.dpi / 72)) := rfl
      rw [h1, if_neg hne, hdpi]
      have h2 : (((exportToPNGDims o).1 : ℚ)) * ((72 : ℚ) / 72) =
          (((exportToPNGDims o).1 : ℤ) : ℚ) := by
        norm_num
      rw [h2]
      exact jsRound_intCast _
    · intro hne
      have h1 : (exportToPNGCanvasDims o).2 =
          jsRound ((if (exportToPNGDims o).2 = 0 then (600 : ℚ)
            else ((exportToPNGDims o).2 : ℚ)) * (o.dpi / 72)) := rfl
      rw [h1, if_neg hne, hdpi]
      have h2 : (((exportToPNGDims o).2 : ℚ)) * ((72 : ℚ) / 72) =
          (((exportToPNGDims o).2 : ℤ) : ℚ) := by
        norm_num
      rw [h2]
      exact jsRound_intCast _
  · exact jsRound_close _
  · exact jsRound_close _
  · exact jsRound_close _
  · exact jsRound_close _

/-- Witness for the amended C9: a landscape Letter export at 300 dpi
swaps the Letter page dimensions. -/
theorem c9_paper_size_and_dpi_witness :
    ((ExportService.mkOptions ExportService.PaperSize.letter none none
        ExportService.PageOrient.landscape 300).orientation =
      ExportService.PageOrient.landscape ∧
      (ExportService.paperWH
        (ExportService.mkOptions ExportService.PaperSize.letter none none
          ExportService.PageOrient.landscape 300)).1 <
        (ExportService.paperWH
          (ExportService.mkOptions ExportService.PaperSize.letter none none
            ExportService.PageOrient.landscape 300)).2) ∧
    ExportService.calculateDimensions
        (ExportService.mkOptions ExportService.PaperSize.letter none none
          ExportService.PageOrient.landscape 300) =
      ((ExportService.paperWH
        (ExportService.mkOptions ExportService.PaperSize.letter none none
          ExportService.PageOrient.landscape 300)).2,
       (ExportService.paperWH
        (ExportService.mkOptions ExportService.PaperSize.letter none none
          ExportService.PageOrient.landscape 300)).1) :=
  ⟨⟨rfl, by norm_num [ExportService.paperWH, ExportService.mkOptions]⟩,
    (c9_paper_size_and_dpi
      (ExportService.mkOptions ExportService.PaperSize.letter none none
        ExportService.PageOrient.landscape 300) none none 300).2.2.2.1 rfl
      (by norm_num [ExportService.paperWH, ExportService.mkOptions])⟩

end TerraTactics
